import Mathlib

/-!
A shallow embedding of the ndoh-hub change/registration pipeline
(`changes/tasks.py` and `registrations/tasks.py`), together with theorems
about its validation engine, action handlers, schedule sequencing, PII
lifecycle, submission builders and retry policy.

Python dictionaries are modelled as association lists (`DataMap`), the
external subscription/identity services as an explicit `World` record, and
the Celery tasks as pure functions threading that world.
-/

namespace NdohHub

/-- An untyped value stored in a record's `data` map (a JSON-ish payload
value: string, boolean, integer, `None`, or a list of strings such as the
`invalid_fields` error list). -/
inductive Val where
  | s (str : String)
  | b (bool : Bool)
  | i (int : Int)
  | null
  | strs (l : List String)
deriving DecidableEq, Repr

/-- A Python dict with string keys, as an insertion-ordered association
list.  Keys are unique in every map built by the pipeline. -/
abbrev DataMap := List (String × Val)

/-- `d[k]` as an `Option` (Python `dict.get`). -/
def dlookup (d : DataMap) (k : String) : Option Val :=
  (d.find? (fun p => p.1 == k)).map (·.2)

/-- `k in d` (Python key-membership test). -/
def dhas (d : DataMap) (k : String) : Bool :=
  (d.find? (fun p => p.1 == k)).isSome

/-- `d[k] = v`: replace in place when the key exists (keys are unique, so
replacing the first hit is Python's in-place update), append otherwise
(Python dicts keep insertion order). -/
def dset (d : DataMap) (k : String) (v : Val) : DataMap :=
  match d with
  | [] => [(k, v)]
  | p :: rest => if p.1 == k then (k, v) :: rest else p :: dset rest k v

/-- The removal part of `d.pop(k)`. -/
def dpop (d : DataMap) (k : String) : DataMap :=
  d.filter (fun p => p.1 != k)

/-- `d.keys()`. -/
def dkeys (d : DataMap) : List String := d.map (·.1)

/-- Python `needle in haystack` on strings (substring containment). -/
def strContains (hay needle : String) : Bool :=
  decide (needle.data <:+: hay.data)

/-- The string value of a data entry, totalising Python's duck typing:
non-string and missing values collapse to `""`. -/
def valStr (v : Option Val) : String :=
  match v with
  | some (.s str) => str
  | _ => ""

/-- Python truthiness of a data entry (`data.get(k)` used as a condition). -/
def valTruthy (v : Option Val) : Bool :=
  match v with
  | some (.s str) => str != ""
  | some (.b bool) => bool
  | some (.i int) => int != 0
  | some (.strs l) => l != []
  | some .null => false
  | none => false

/-- Whether a data entry is a string belonging to a closed list (Python
`data[k] in xs` against a list of string literals; a non-string or missing
value is never a member). -/
def valInList (v : Option Val) (xs : List String) : Bool :=
  match v with
  | some (.s str) => xs.contains str
  | _ => false

/-- Set-equality of two key lists (Python `set(a) == set(b)`). -/
def listSetEq (a bl : List String) : Bool :=
  a.all (bl.contains ·) && bl.all (a.contains ·)

/-- Modelled from the spec: the per-field format validators
(`is_valid_uuid`, `is_valid_lang`, `is_valid_msisdn`, ... ) and
`get_baby_age` live in `ndoh_hub/utils.py`, which is not among the
sources; §4.1 specifies only that each is a format check on a single
value.  They are therefore kept as an abstract, but executable, parameter
bundle: every theorem about the validation engine holds for an arbitrary
instantiation. -/
structure Validity where
  is_valid_uuid : Val → Bool
  is_valid_lang : Val → Bool
  is_valid_msisdn : Val → Bool
  is_valid_date : Val → Bool
  is_valid_edd : Val → Bool
  is_valid_sa_id_no : Val → Bool
  is_valid_passport_no : Val → Bool
  is_valid_passport_origin : Val → Bool
  is_valid_faccode : Val → Bool
  is_valid_sanc_no : Val → Bool
  is_valid_persal_no : Val → Bool
  is_valid_id_type : Val → Bool
  get_baby_age : Val → Int

/-- A `Change` record (`changes/models.py` entity as used by the tasks). -/
structure Change where
  id : Nat
  registrant_id : String
  action : String
  data : DataMap
  validated : Bool
  created_at : String
deriving DecidableEq, Repr

/-- A registration `Source` (only its `authority` matters to the tasks). -/
structure Source where
  authority : String
deriving DecidableEq, Repr

/-- A `Registration` record (`registrations/models.py` entity as used by
the tasks); `created_at` is an abstract monotone timestamp used only for
`order_by('-created_at')`. -/
structure Registration where
  id : Nat
  registrant_id : String
  reg_type : String
  data : DataMap
  validated : Bool
  source : Source
  created_at : Nat
deriving DecidableEq, Repr

/-! ### Change validation checks (`ValidateImplement.check_*`) -/

def check_pmtct_loss_optout_reason (data_fields : List String) (c : Change) : List String :=
  if !data_fields.contains "reason" then ["Optout reason is missing"]
  else if !valInList (dlookup c.data "reason") ["miscarriage", "stillbirth", "babyloss"] then
    ["Not a valid loss reason"]
  else []

def check_pmtct_nonloss_optout_reason (data_fields : List String) (c : Change) : List String :=
  if !data_fields.contains "reason" then ["Optout reason is missing"]
  else if !valInList (dlookup c.data "reason") ["not_hiv_pos", "not_useful", "other", "unknown"] then
    ["Not a valid nonloss reason"]
  else []

def check_nurse_update_detail (V : Validity) (data_fields : List String) (c : Change) : List String :=
  if data_fields.length == 0 then ["No details to update"]
  else if data_fields.contains "faccode" then
    if data_fields.length != 1 then ["Only one detail update can be submitted per Change"]
    else if !(V.is_valid_faccode ((dlookup c.data "faccode").getD .null)) then ["Faccode invalid"]
    else []
  else if data_fields.contains "sanc_no" then
    if data_fields.length != 1 then ["Only one detail update can be submitted per Change"]
    else if !(V.is_valid_sanc_no ((dlookup c.data "sanc_no").getD .null)) then ["sanc_no invalid"]
    else []
  else if data_fields.contains "persal_no" then
    if data_fields.length != 1 then ["Only one detail update can be submitted per Change"]
    else if !(V.is_valid_persal_no ((dlookup c.data "persal_no").getD .null)) then ["persal_no invalid"]
    else []
  else if data_fields.contains "id_type" &&
      !valInList (dlookup c.data "id_type") ["passport", "sa_id"] then
    ["ID type should be passport or sa_id"]
  else if data_fields.contains "id_type" && valStr (dlookup c.data "id_type") == "sa_id" then
    if data_fields.length != 3 || !listSetEq data_fields ["id_type", "sa_id_no", "dob"] then
      ["SA ID update requires fields id_type, sa_id_no, dob"]
    else if !(V.is_valid_date ((dlookup c.data "dob").getD .null)) then ["Date of birth is invalid"]
    else if !(V.is_valid_sa_id_no ((dlookup c.data "sa_id_no").getD .null)) then
      ["SA ID number is invalid"]
    else []
  else if data_fields.contains "id_type" && valStr (dlookup c.data "id_type") == "passport" then
    if data_fields.length != 4 ||
        !listSetEq data_fields ["id_type", "passport_no", "passport_origin", "dob"] then
      ["Passport update requires fields id_type, passport_no, passport_origin, dob"]
    else if !(V.is_valid_date ((dlookup c.data "dob").getD .null)) then ["Date of birth is invalid"]
    else if !(V.is_valid_passport_no ((dlookup c.data "passport_no").getD .null)) then
      ["Passport number is invalid"]
    else if !(V.is_valid_passport_origin ((dlookup c.data "passport_origin").getD .null)) then
      ["Passport origin is invalid"]
    else []
  else ["Could not parse detail update request"]

def check_nurse_change_msisdn (V : Validity) (data_fields : List String) (c : Change) : List String :=
  if data_fields.length != 3 ||
      !listSetEq data_fields ["msisdn_old", "msisdn_new", "msisdn_device"] then
    ["SA ID update requires fields msisdn_old, msisdn_new, msisdn_device"]
  else if !(V.is_valid_msisdn ((dlookup c.data "msisdn_old").getD .null)) then
    ["Invalid old msisdn"]
  else if !(V.is_valid_msisdn ((dlookup c.data "msisdn_new").getD .null)) then
    ["Invalid old msisdn"]
  else if !(dlookup c.data "msisdn_device" == dlookup c.data "msisdn_new" ||
            dlookup c.data "msisdn_device" == dlookup c.data "msisdn_old") then
    ["Device msisdn should be the same as new or old msisdn"]
  else []

def check_nurse_optout (data_fields : List String) (c : Change) : List String :=
  if !data_fields.contains "reason" then ["Optout reason is missing"]
  else if !valInList (dlookup c.data "reason")
      ["job_change", "number_owner_change", "not_useful", "other", "unknown"] then
    ["Not a valid optout reason"]
  else []

def check_momconnect_loss_optout_reason (data_fields : List String) (c : Change) : List String :=
  if !data_fields.contains "reason" then ["Optout reason is missing"]
  else if !valInList (dlookup c.data "reason") ["miscarriage", "stillbirth", "babyloss"] then
    ["Not a valid loss reason"]
  else []

def check_momconnect_nonloss_optout_reason (data_fields : List String) (c : Change) : List String :=
  if !data_fields.contains "reason" then ["Optout reason is missing"]
  else if !valInList (dlookup c.data "reason") ["not_useful", "other", "unknown", "sms_failure"] then
    ["Not a valid nonloss reason"]
  else []

def check_momconnect_change_language (V : Validity) (data_fields : List String) (c : Change) : List String :=
  if !data_fields.contains "language" then ["language field is missing"]
  else if !(V.is_valid_lang ((dlookup c.data "language").getD .null)) then
    ["Not a valid language choice"]
  else []

def check_momconnect_change_msisdn (V : Validity) (data_fields : List String) (c : Change) : List String :=
  if !data_fields.contains "msisdn" then ["msisdn field is missing"]
  else if !(V.is_valid_msisdn ((dlookup c.data "msisdn").getD .null)) then
    ["Not a valid MSISDN"]
  else []

def check_momconnect_change_identification (V : Validity) (data_fields : List String) (c : Change) : List String :=
  if !data_fields.contains "id_type" then ["ID type missing"]
  else if valStr (dlookup c.data "id_type") == "sa_id" then
    if !data_fields.contains "sa_id_no" then ["SA ID number missing"]
    else if !(V.is_valid_sa_id_no ((dlookup c.data "sa_id_no").getD .null)) then
      ["SA ID number invalid"]
    else []
  else if valStr (dlookup c.data "id_type") == "passport" then
    (if !data_fields.contains "passport_no" then ["Passport number missing"]
     else if !(V.is_valid_passport_no ((dlookup c.data "passport_no").getD .null)) then
       ["Passport number invalid"]
     else []) ++
    (if !data_fields.contains "passport_origin" then ["Passport origin missing"]
     else if !(V.is_valid_passport_origin ((dlookup c.data "passport_origin").getD .null)) then
       ["Passport origin invalid"]
     else [])
  else ["ID type should be 'sa_id' or 'passport'"]

def check_admin_change_subscription (data_fields : List String) (_c : Change) : List String :=
  (if !data_fields.contains "messageset" && !data_fields.contains "language" then
    ["One of these fields must be populated: messageset, language"]
   else []) ++
  (if !data_fields.contains "subscription" then ["Subscription field is missing"] else [])

def check_switch_channel (data_fields : List String) (c : Change) : List String :=
  if !data_fields.contains "channel" then ["'channel' is a required field"]
  else if !valInList (dlookup c.data "channel") ["whatsapp", "sms"] then
    ["'channel' must be one of ['sms', 'whatsapp']"]
  else []

/-- The dispatch part of `ValidateImplement.validate`: the ordered error
list collected for a change (UUID check first, then the per-action
checks). -/
def collectChangeErrors (V : Validity) (c : Change) : List String :=
  (if V.is_valid_uuid (.s c.registrant_id) then [] else ["Invalid UUID registrant_id"]) ++
  (let data_fields := dkeys c.data
   if strContains c.action "pmtct_loss" then check_pmtct_loss_optout_reason data_fields c
   else if c.action == "pmtct_nonloss_optout" then
     check_pmtct_nonloss_optout_reason data_fields c
   else if c.action == "nurse_update_detail" then check_nurse_update_detail V data_fields c
   else if c.action == "nurse_change_msisdn" then check_nurse_change_msisdn V data_fields c
   else if c.action == "nurse_optout" then check_nurse_optout data_fields c
   else if strContains c.action "momconnect_loss" then
     check_momconnect_loss_optout_reason data_fields c
   else if c.action == "momconnect_nonloss_optout" then
     check_momconnect_nonloss_optout_reason data_fields c
   else if c.action == "momconnect_change_language" then
     check_momconnect_change_language V data_fields c
   else if c.action == "momconnect_change_msisdn" then
     check_momconnect_change_msisdn V data_fields c
   else if c.action == "momconnect_change_identification" then
     check_momconnect_change_identification V data_fields c
   else if c.action == "admin_change_subscription" then
     check_admin_change_subscription data_fields c
   else if c.action == "switch_channel" then check_switch_channel data_fields c
   else [])

/-- `ValidateImplement.validate`: returns the boolean result together with
the saved record (success sets `validated`; failure records the error list
under `data["invalid_fields"]`). -/
def validateChange (V : Validity) (c : Change) : Bool × Change :=
  let errs := collectChangeErrors V c
  if errs.length == 0 then (true, { c with validated := true })
  else (false, { c with data := dset c.data "invalid_fields" (.strs errs) })

/-! ### Registration validation checks (`ValidateSubscribe.check_*`) -/

def check_lang (V : Validity) (data_fields : List String) (r : Registration) : List String :=
  if !data_fields.contains "language" then ["Language is missing from data"]
  else if !(V.is_valid_lang ((dlookup r.data "language").getD .null)) then
    ["Language not a valid option"]
  else []

def check_mom_dob (V : Validity) (data_fields : List String) (r : Registration) : List String :=
  if !data_fields.contains "mom_dob" then ["Mother DOB missing"]
  else if !(V.is_valid_date ((dlookup r.data "mom_dob").getD .null)) then ["Mother DOB invalid"]
  else []

def check_edd (V : Validity) (data_fields : List String) (r : Registration) : List String :=
  if !data_fields.contains "edd" then ["Estimated Due Date missing"]
  else if !(V.is_valid_edd ((dlookup r.data "edd").getD .null)) then
    ["Estimated Due Date invalid"]
  else []

def check_baby_dob (V : Validity) (data_fields : List String) (r : Registration) : List String :=
  if !data_fields.contains "baby_dob" then ["Baby Date of Birth missing"]
  else if !(V.is_valid_date ((dlookup r.data "baby_dob").getD .null)) then
    ["Baby Date of Birth invalid"]
  else if V.get_baby_age ((dlookup r.data "baby_dob").getD .null) < 0 then
    ["Baby Date of Birth cannot be in the future"]
  else []

def check_operator_id (V : Validity) (data_fields : List String) (r : Registration) : List String :=
  if !data_fields.contains "operator_id" then ["Operator ID missing"]
  else if !(V.is_valid_uuid ((dlookup r.data "operator_id").getD .null)) then
    ["Operator ID invalid"]
  else []

def check_msisdn_registrant (V : Validity) (data_fields : List String) (r : Registration) : List String :=
  if !data_fields.contains "msisdn_registrant" then ["MSISDN of Registrant missing"]
  else if !(V.is_valid_msisdn ((dlookup r.data "msisdn_registrant").getD .null)) then
    ["MSISDN of Registrant invalid"]
  else []

def check_msisdn_device (V : Validity) (data_fields : List String) (r : Registration) : List String :=
  if !data_fields.contains "msisdn_device" then ["MSISDN of device missing"]
  else if !(V.is_valid_msisdn ((dlookup r.data "msisdn_device").getD .null)) then
    ["MSISDN of device invalid"]
  else []

def check_faccode (V : Validity) (data_fields : List String) (r : Registration) : List String :=
  if !data_fields.contains "faccode" then ["Facility (clinic) code missing"]
  else if !(V.is_valid_faccode ((dlookup r.data "faccode").getD .null)) then
    ["Facility code invalid"]
  else []

def check_consent (data_fields : List String) (r : Registration) : List String :=
  if !data_fields.contains "consent" then ["Consent is missing"]
  else if dlookup r.data "consent" != some (.b true) then ["Cannot continue without consent"]
  else []

def check_sa_id_no (V : Validity) (data_fields : List String) (r : Registration) : List String :=
  if !data_fields.contains "sa_id_no" then ["SA ID number missing"]
  else if !(V.is_valid_sa_id_no ((dlookup r.data "sa_id_no").getD .null)) then
    ["SA ID number invalid"]
  else []

def check_passport_no (V : Validity) (data_fields : List String) (r : Registration) : List String :=
  if !data_fields.contains "passport_no" then ["Passport number missing"]
  else if !(V.is_valid_passport_no ((dlookup r.data "passport_no").getD .null)) then
    ["Passport number invalid"]
  else []

def check_passport_origin (V : Validity) (data_fields : List String) (r : Registration) : List String :=
  if !data_fields.contains "passport_origin" then ["Passport origin missing"]
  else if !(V.is_valid_passport_origin ((dlookup r.data "passport_origin").getD .null)) then
    ["Passport origin invalid"]
  else []

def check_id (V : Validity) (data_fields : List String) (r : Registration) : List String :=
  if !data_fields.contains "id_type" then ["ID type missing"]
  else if !(V.is_valid_id_type ((dlookup r.data "id_type").getD .null)) then
    ["ID type should be one of ['sa_id', 'passport', 'none']"]
  else if valStr (dlookup r.data "id_type") == "sa_id" then
    check_sa_id_no V data_fields r ++ check_mom_dob V data_fields r
  else if valStr (dlookup r.data "id_type") == "passport" then
    check_passport_no V data_fields r ++ check_passport_origin V data_fields r
  else if valStr (dlookup r.data "id_type") == "none" then
    check_mom_dob V data_fields r
  else []

/-- The dispatch part of `ValidateSubscribe.validate`: the ordered error
list collected for a registration. -/
def collectRegErrors (V : Validity) (r : Registration) : List String :=
  (if V.is_valid_uuid (.s r.registrant_id) then [] else ["Invalid UUID registrant_id"]) ++
  (let data_fields := dkeys r.data
   if strContains r.reg_type "pmtct_prebirth" then
     check_lang V data_fields r ++ check_mom_dob V data_fields r ++
     check_edd V data_fields r ++ check_operator_id V data_fields r
   else if strContains r.reg_type "pmtct_postbirth" then
     check_lang V data_fields r ++ check_mom_dob V data_fields r ++
     check_baby_dob V data_fields r ++ check_operator_id V data_fields r
   else if strContains r.reg_type "nurseconnect" then
     check_faccode V data_fields r ++ check_operator_id V data_fields r ++
     check_msisdn_registrant V data_fields r ++ check_msisdn_device V data_fields r ++
     check_lang V data_fields r
   else if r.reg_type == "momconnect_prebirth" || r.reg_type == "whatsapp_prebirth" then
     check_operator_id V data_fields r ++ check_msisdn_registrant V data_fields r ++
     check_msisdn_device V data_fields r ++ check_lang V data_fields r ++
     check_consent data_fields r ++
     (if r.source.authority == "hw_full" || r.source.authority == "hw_partial" then
       check_id V data_fields r
      else []) ++
     (if r.source.authority == "hw_full" then
       check_edd V data_fields r ++ check_faccode V data_fields r
      else [])
   else if r.reg_type == "momconnect_postbirth" then ["Momconnect postbirth not yet supported"]
   else if r.reg_type == "loss_general" then ["Loss general not yet supported"]
   else [])

/-- `ValidateSubscribe.validate`: result plus the saved record. -/
def validateRegistration (V : Validity) (r : Registration) : Bool × Registration :=
  let errs := collectRegErrors V r
  if errs.length == 0 then (true, { r with validated := true })
  else (false, { r with data := dset r.data "invalid_fields" (.strs errs) })

/-! ### The external-service world

The Subscription Service (`sbm_client`) and Identity Service (`is_client`)
are modelled as explicit state threaded through the handlers. -/

/-- A subscription held by the Subscription Service. -/
structure Subscription where
  id : Nat
  identity : String
  messageset : Nat
  active : Bool
  lang : String
  next_sequence_number : Int
  schedule : Nat
deriving DecidableEq, Repr

/-- A message-set catalog entry. -/
structure Messageset where
  id : Nat
  short_name : String
  default_schedule : Nat
deriving DecidableEq, Repr

/-- A `SubscriptionRequest` row created by the pipeline. -/
structure SubReq where
  identity : String
  messageset : Nat
  next_sequence_number : Int
  lang : String
  schedule : Nat
deriving DecidableEq, Repr

/-- Per-address details inside `identity.details.addresses.msisdn`
(optional keys of the Python dict become `Option`/default fields). -/
structure AddrInfo where
  default : Option Bool := none
  optedout : Option Bool := none
  changes_from : List Nat := []
  changes_to : List Nat := []
deriving DecidableEq, Repr

/-- An Identity Service profile.  The nested `details.addresses.msisdn`
dict and the `identification_history` list are flattened into dedicated
fields; the remaining free-form `details` keys stay in a `DataMap`. -/
structure Identity where
  id : String
  details : DataMap
  msisdns : List (String × AddrInfo)
  identification_history : List DataMap
deriving DecidableEq, Repr

/-- The state of both external services plus the rows this service owns. -/
structure World where
  subscriptions : List Subscription
  messagesets : List Messageset
  identities : List Identity
  subreqs : List SubReq
  registrations : List Registration
  freshIds : List String
deriving DecidableEq, Repr

/-- `sbm_client.get_subscriptions({'identity': ..., 'active': True})`. -/
def getActiveSubs (W : World) (ident : String) : List Subscription :=
  W.subscriptions.filter (fun sub => sub.identity == ident && sub.active)

/-- A subscription patch (`sbm_client.update_subscription` body). -/
structure SubPatch where
  active : Option Bool := none
  lang : Option String := none

/-- `sbm_client.update_subscription(sid, patch)`. -/
def updateSubscription (W : World) (sid : Nat) (patch : SubPatch) : World :=
  { W with subscriptions := W.subscriptions.map (fun sub =>
      if sub.id == sid then
        { sub with active := patch.active.getD sub.active, lang := patch.lang.getD sub.lang }
      else sub) }

/-- `sbm_client.get_messageset(mid)`, totalised with an empty-name dummy
entry for a missing catalog id (the Python client would raise). -/
def findMessageset (W : World) (mid : Nat) : Messageset :=
  (W.messagesets.find? (fun ms => ms.id == mid)).getD ⟨0, "", 0⟩

/-- `is_client.get_identity(iid)`. -/
def getIdentity (W : World) (iid : String) : Option Identity :=
  W.identities.find? (fun i => i.id == iid)

/-- The `details` map of an identity, totalised to `[]` when the identity
is missing (the Python code would raise). -/
def getIdentityDetails (W : World) (iid : String) : DataMap :=
  ((getIdentity W iid).getD ⟨iid, [], [], []⟩).details

/-- `is_client.update_identity(iid, {'details': d})` for the flat part of
the details map (addresses travel separately in this model). -/
def updateIdentityDetails (W : World) (iid : String) (d : DataMap) : World :=
  { W with identities := W.identities.map (fun i =>
      if i.id == iid then { i with details := d } else i) }

/-- `is_client.get_identity_by_address('msisdn', m)`. -/
def getIdentityByAddress (W : World) (m : String) : List Identity :=
  W.identities.filter (fun i => (i.msisdns.find? (fun p => p.1 == m)).isSome)

/-- `is_client.create_identity({'details': {'addresses': {'msisdn': {m: {}}}}})`:
a minimal identity carrying the address (note: *not* marked default),
appended to the store under a fresh opaque id. -/
def createIdentityWithMsisdn (W : World) (m : String) : Identity × World :=
  let iid := W.freshIds.headD "exhausted"
  let ident : Identity := ⟨iid, [], [(m, {})], []⟩
  (ident, { W with identities := W.identities ++ [ident], freshIds := W.freshIds.tail })

/-- `SubscriptionRequest.objects.create(...)`. -/
def addSubReq (W : World) (sr : SubReq) : World :=
  { W with subreqs := W.subreqs ++ [sr] }

/-! ### Schedule sequencing (`ndoh_hub/utils.py`, absent from the sources)

`get_messageset_short_name` and the sequence-number computation of
`get_messageset_schedule_sequence` live in `ndoh_hub/utils.py`, which is
not among the sources; only their unit tests
(`registrations/tests.py:test_get_messageset_short_name` and
`test_get_messageset_schedule_sequence`) are.  The definitions below are
modelled from the spec (§4.2) and are checked against the embedded test
expectations by the theorems on `seqTestTable`. -/

/-- Modelled from the spec: `shortName(kind, authority, position)` buckets
the position into numbered batches with the §4.2 thresholds
(pmtct-prebirth: week < 30 → batch 1, 30–34 → batch 2, ≥ 35 → batch 3;
pmtct-postbirth: week ≤ 1 → batch 1, ≥ 2 → batch 2; every other kind is a
single batch) and renders `"{kind}.{authority}.{batch}"`. -/
def getMessagesetShortName (reg_type authority : String) (weeks : Int) : String :=
  let batch : Nat :=
    if strContains reg_type "pmtct_prebirth" then
      if weeks ≤ 29 then 1 else if weeks ≤ 34 then 2 else 3
    else if strContains reg_type "pmtct_postbirth" then
      if weeks ≤ 1 then 1 else 2
    else 1
  reg_type ++ "." ++ authority ++ "." ++ toString batch

/-- Modelled from the spec (§4.2), amended by the embedded test
expectations: the starting sequence number for a message set.  The spec's
formula is `(position − batch_start) * messages_per_cycle + 1`; the test
table instead fixes `max 1 ((position − batch_start) * messages_per_cycle)`
with batch starts 6/30/35 (pmtct-prebirth), 0/1 (pmtct-postbirth), a cap
of 20 for pmtct-prebirth batch 3 from week 42, and 1 for every other
message set. -/
def resolveSeq (short_name : String) (weeks : Int) : Int :=
  let base : Int :=
    if short_name == "pmtct_prebirth.patient.1" then (weeks - 6) * 1
    else if short_name == "pmtct_prebirth.patient.2" then (weeks - 30) * 2
    else if short_name == "pmtct_prebirth.patient.3" then
      if 42 ≤ weeks then 20 else (weeks - 35) * 3
    else if short_name == "pmtct_postbirth.patient.1" then weeks * 3
    else if short_name == "pmtct_postbirth.patient.2" then (weeks - 1) * 1
    else 1
  max base 1

/-- `get_messageset_schedule_sequence(short_name, weeks)`: the catalog
lookup by short name (an external call) plus the pure sequence-number
computation. -/
def getMessagesetScheduleSequence (W : World) (short_name : String) (weeks : Int) :
    Option (Nat × Nat × Int) :=
  (W.messagesets.find? (fun ms => ms.short_name == short_name)).map
    (fun ms => (ms.id, ms.default_schedule, resolveSeq short_name weeks))

/-- The message-set/schedule fixture ids used by
`test_get_messageset_schedule_sequence` (the expected triples in the src
tests pin these ids). -/
def seqFixtureWorld : World :=
  { subscriptions := [], identities := [], subreqs := [], registrations := [], freshIds := [],
    messagesets := [
      ⟨11, "pmtct_prebirth.patient.1", 111⟩,
      ⟨12, "pmtct_prebirth.patient.2", 112⟩,
      ⟨13, "pmtct_prebirth.patient.3", 113⟩,
      ⟨14, "pmtct_postbirth.patient.1", 114⟩,
      ⟨15, "pmtct_postbirth.patient.2", 115⟩,
      ⟨61, "nurseconnect.hw_full.1", 161⟩] }

/-- The assertions of
`registrations/tests.py:test_get_messageset_schedule_sequence`, verbatim:
`(short_name, weeks, (messageset_id, schedule_id, next_sequence_number))`. -/
def seqTestTable : List (String × Int × (Nat × Nat × Int)) := [
  ("pmtct_prebirth.patient.1", 2, (11, 111, 1)),
  ("pmtct_prebirth.patient.1", 7, (11, 111, 1)),
  ("pmtct_prebirth.patient.1", 8, (11, 111, 2)),
  ("pmtct_prebirth.patient.1", 29, (11, 111, 23)),
  ("pmtct_prebirth.patient.2", 30, (12, 112, 1)),
  ("pmtct_prebirth.patient.2", 31, (12, 112, 2)),
  ("pmtct_prebirth.patient.2", 32, (12, 112, 4)),
  ("pmtct_prebirth.patient.2", 34, (12, 112, 8)),
  ("pmtct_prebirth.patient.3", 35, (13, 113, 1)),
  ("pmtct_prebirth.patient.3", 36, (13, 113, 3)),
  ("pmtct_prebirth.patient.3", 37, (13, 113, 6)),
  ("pmtct_prebirth.patient.3", 41, (13, 113, 18)),
  ("pmtct_prebirth.patient.3", 42, (13, 113, 20)),
  ("pmtct_postbirth.patient.1", 0, (14, 114, 1)),
  ("pmtct_postbirth.patient.1", 1, (14, 114, 3)),
  ("pmtct_postbirth.patient.2", 2, (15, 115, 1)),
  ("pmtct_postbirth.patient.2", 3, (15, 115, 2)),
  ("pmtct_postbirth.patient.2", 4, (15, 115, 3)),
  ("nurseconnect.hw_full.1", 500, (61, 161, 1))]

/-- The messages-per-cycle each fixture schedule encodes, as exhibited by
the per-week increments of the test table (schedule 111 delivers once a
week, 112 twice, 113 and 114 three times, 115 once). -/
def messagesPerCycle (schedule : Nat) : Int :=
  if schedule == 112 then 2
  else if schedule == 113 then 3
  else if schedule == 114 then 3
  else 1

/-! ### Change action handlers (`ValidateImplement`) -/

/-- The submission tasks a handler can hand back to `run` for chaining. -/
inductive JembiTag where
  | momconnectOptout
  | pmtctOptout
  | babyloss
  | babyswitch
  | nurseOptout
  | channelSwitch
deriving DecidableEq, Repr

/-- `ValidateImplement.deactivate_all`. -/
def deactivate_all (W : World) (c : Change) : World :=
  (getActiveSubs W c.registrant_id).foldl
    (fun w sub => updateSubscription w sub.id { active := some false }) W

/-- `ValidateImplement.deactivate_all_except_nurseconnect`. -/
def deactivate_all_except_nurseconnect (W : World) (c : Change) : World :=
  let nc_ids := (W.messagesets.filter (fun ms => strContains ms.short_name "nurseconnect")).map
    (·.id)
  (getActiveSubs W c.registrant_id).foldl
    (fun w sub =>
      if !nc_ids.contains sub.messageset then
        updateSubscription w sub.id { active := some false }
      else w) W

/-- `ValidateImplement.deactivate_nurseconnect`. -/
def deactivate_nurseconnect (W : World) (c : Change) : World :=
  let nc_msets := W.messagesets.filter (fun ms => strContains ms.short_name "nurseconnect")
  let active_subs := nc_msets.flatMap (fun ms =>
    W.subscriptions.filter (fun sub =>
      sub.identity == c.registrant_id && sub.active && sub.messageset == ms.id))
  active_subs.foldl (fun w sub => updateSubscription w sub.id { active := some false }) W

/-- `ValidateImplement.deactivate_pmtct`. -/
def deactivate_pmtct (W : World) (c : Change) : World :=
  (getActiveSubs W c.registrant_id).foldl
    (fun w sub =>
      if strContains (findMessageset W sub.messageset).short_name "pmtct" then
        updateSubscription w sub.id { active := some false }
      else w) W

/-- `ValidateImplement.loss_switch`.  With no active subscription it
aborts with `False`; otherwise (the `for`'s `else` arm, always taken since
the loop has no `break`) it deactivates everything except nurseconnect and
creates the loss `SubscriptionRequest`, returning `True`.  The running
`short_name` of the whatsapp scan persists across iterations exactly like
the leaked Python loop variable. -/
def loss_switch (W : World) (c : Change) : World × Bool :=
  let active_subs := getActiveSubs W c.registrant_id
  if active_subs.length == 0 then (W, false)
  else
    let whatsapp := (active_subs.foldl
      (fun (p : Option String × Bool) sub =>
        let sn := W.messagesets.foldl
          (fun a ms => if ms.id == sub.messageset then some ms.short_name else a) p.1
        (sn, p.2 || strContains (sn.getD "") "whatsapp"))
      (none, false)).2
    let W1 := deactivate_all_except_nurseconnect W c
    let set_name := "loss_" ++ valStr (dlookup c.data "reason")
    let set_name := if whatsapp then "whatsapp_" ++ set_name else set_name
    let short_name := getMessagesetShortName set_name "patient" 0
    let sbm := (getMessagesetScheduleSequence W1 short_name 0).getD (0, 0, 1)
    let lang := valStr (dlookup (getIdentityDetails W1 c.registrant_id) "lang_code")
    (addSubReq W1
      { identity := c.registrant_id, messageset := sbm.1,
        next_sequence_number := sbm.2.2, lang := lang, schedule := sbm.2.1 }, true)

/-- The per-subscription accumulator of `baby_switch`'s evaluation loop. -/
structure BabyFlags where
  pmtct : Bool := false
  wapmtct : Bool := false
  mom : Bool := false
  wamom : Bool := false
  lang : Option String := none
deriving DecidableEq, Repr

/-- One iteration of `baby_switch`'s loop over the active subscriptions:
update the prebirth flags and deactivate prebirth subscriptions. -/
def babyEvalStep (msets : List Messageset) (p : BabyFlags × World) (sub : Subscription) :
    BabyFlags × World :=
  let sn := ((msets.find? (fun ms => ms.id == sub.messageset)).map (·.short_name)).getD ""
  let f := p.1
  let f := if strContains sn "pmtct_prebirth" then
      { f with wapmtct := f.wapmtct || strContains sn "whatsapp", pmtct := true,
               lang := some sub.lang }
    else f
  let f := if strContains sn "momconnect_prebirth" then
      { f with mom := true, wamom := f.wamom || strContains sn "whatsapp",
               lang := some sub.lang }
    else f
  let w := if strContains sn "prebirth" then
      updateSubscription p.2 sub.id { active := some false }
    else p.2
  (f, w)

/-- Store today's date on the identity (`baby_switch`'s closing
`last_baby_dob` update; `utils.get_today` is modelled as a constant). -/
def saveLastBabyDob (W : World) (iid : String) : World :=
  updateIdentityDetails W iid (dset (getIdentityDetails W iid) "last_baby_dob" (.s "2016-01-01"))

/-- `ValidateImplement.baby_switch`. -/
def baby_switch (W : World) (c : Change) : World × Option JembiTag :=
  let active_subs := getActiveSubs W c.registrant_id
  let fw := active_subs.foldl (babyEvalStep W.messagesets) ({}, W)
  let f := fw.1
  let W1 := fw.2
  let W2 :=
    if f.mom then
      let short_name := getMessagesetShortName "momconnect_postbirth" "hw_full" 0
      let short_name := if f.wamom then "whatsapp_" ++ short_name else short_name
      let sbm := (getMessagesetScheduleSequence W1 short_name 0).getD (0, 0, 1)
      addSubReq W1
        { identity := c.registrant_id, messageset := sbm.1,
          next_sequence_number := sbm.2.2, lang := f.lang.getD "", schedule := sbm.2.1 }
    else W1
  let W3 :=
    if f.pmtct then
      let set_name := if f.wapmtct then "whatsapp_pmtct_postbirth" else "pmtct_postbirth"
      let short_name := getMessagesetShortName set_name "patient" 0
      let sbm := (getMessagesetScheduleSequence W2 short_name 0).getD (0, 0, 1)
      addSubReq W2
        { identity := c.registrant_id, messageset := sbm.1,
          next_sequence_number := sbm.2.2, lang := f.lang.getD "", schedule := sbm.2.1 }
    else W2
  (saveLastBabyDob W3 c.registrant_id, some .babyswitch)

/-- `ValidateImplement.pmtct_loss_switch`: the submission task is produced
only when `loss_switch` reports `True`. -/
def pmtct_loss_switch (W : World) (c : Change) : World × Option JembiTag :=
  let r := loss_switch W c
  if r.2 then (r.1, some .babyloss) else (r.1, none)

/-- `ValidateImplement.momconnect_loss_switch`. -/
def momconnect_loss_switch (W : World) (c : Change) : World × Option JembiTag :=
  let r := loss_switch W c
  if r.2 then (r.1, some .babyloss) else (r.1, none)

/-- `ValidateImplement.pmtct_loss_optout`. -/
def pmtct_loss_optout (W : World) (c : Change) : World × Option JembiTag :=
  (deactivate_all_except_nurseconnect W c, some .pmtctOptout)

/-- `ValidateImplement.pmtct_nonloss_optout`. -/
def pmtct_nonloss_optout (W : World) (c : Change) : World × Option JembiTag :=
  (if valStr (dlookup c.data "reason") == "unknown" then deactivate_all W c
   else deactivate_pmtct W c, some .pmtctOptout)

/-- `ValidateImplement.momconnect_loss_optout`. -/
def momconnect_loss_optout (W : World) (c : Change) : World × Option JembiTag :=
  (deactivate_all_except_nurseconnect W c, some .momconnectOptout)

/-- `ValidateImplement.momconnect_nonloss_optout`. -/
def momconnect_nonloss_optout (W : World) (c : Change) : World × Option JembiTag :=
  (if valStr (dlookup c.data "reason") == "unknown" ||
      valStr (dlookup c.data "reason") == "sms_failure" then deactivate_all W c
   else deactivate_all_except_nurseconnect W c, some .momconnectOptout)

/-- `ValidateImplement.nurse_optout`. -/
def nurse_optout (W : World) (c : Change) : World × Option JembiTag :=
  (deactivate_nurseconnect W c, some .nurseOptout)

/-- `ValidateImplement.momconnect_change_language`: re-target the language
of momconnect subscriptions, record `old_language` on the change and set
the identity's `lang_code`. -/
def momconnect_change_language (W : World) (c : Change) : World × Change :=
  let language := valStr (dlookup c.data "language")
  let W1 := (getActiveSubs W c.registrant_id).foldl
    (fun w sub =>
      if strContains (findMessageset W sub.messageset).short_name "momconnect" then
        updateSubscription w sub.id { lang := some language }
      else w) W
  let old := dlookup (getIdentityDetails W1 c.registrant_id) "lang_code"
  let c1 := { c with data := dset c.data "old_language" (old.getD .null) }
  let W2 := updateIdentityDetails W1 c.registrant_id
    (dset (getIdentityDetails W1 c.registrant_id) "lang_code" (.s language))
  (W2, c1)

/-- List-append with creation (`utils.append_or_create` on a history
list). -/
def appendHistory (l : List Nat) (x : Nat) : List Nat := l ++ [x]

/-- `ValidateImplement.momconnect_change_msisdn`: retarget the default
msisdn of the identity, keeping `changes_from`/`changes_to` provenance. -/
def momconnect_change_msisdn (W : World) (c : Change) : World × Change :=
  let new_msisdn := valStr (dlookup c.data "msisdn")
  let c1 := { c with data := dpop c.data "msisdn" }
  let ident := (getIdentity W c.registrant_id).getD ⟨c.registrant_id, [], [], []⟩
  let msisdns := ident.msisdns
  let msisdns :=
    if msisdns.all (fun p => !(p.2.default.getD false)) then
      msisdns.map (fun p => (p.1, { p.2 with changes_from := appendHistory p.2.changes_from c.id }))
    else msisdns
  let msisdns := msisdns.map (fun p =>
    if p.2.default.getD false then
      (p.1, { p.2 with default := some false,
                       changes_from := appendHistory p.2.changes_from c.id })
    else p)
  let msisdns :=
    if (msisdns.find? (fun p => p.1 == new_msisdn)).isSome then
      msisdns.map (fun p => if p.1 == new_msisdn then (p.1, { p.2 with default := some true }) else p)
    else msisdns ++ [(new_msisdn, { default := some true })]
  let msisdns := msisdns.map (fun p =>
    if p.1 == new_msisdn then (p.1, { p.2 with changes_to := appendHistory p.2.changes_to c.id })
    else p)
  let W1 := { W with identities := W.identities.map (fun i =>
      if i.id == c.registrant_id then { i with msisdns := msisdns } else i) }
  (W1, c1)

/-- `ValidateImplement.momconnect_change_identification`: move the old
identification fields into `identification_history` and install the new
ones, popping the consumed fields off the change. -/
def momconnect_change_identification (W : World) (c : Change) : World × Change :=
  let ident := (getIdentity W c.registrant_id).getD ⟨c.registrant_id, [], [], []⟩
  let old_identification : DataMap :=
    [("change", .i c.id)] ++
    (["sa_id_no", "passport_no", "passport_origin"].filterMap (fun f =>
      (dlookup ident.details f).map (fun v => (f, v))))
  let details := (((ident.details.filter
    (fun p => p.1 != "sa_id_no" && p.1 != "passport_no" && p.1 != "passport_origin"))))
  let id_type := valStr (dlookup c.data "id_type")
  let c1 := { c with data := dpop c.data "id_type" }
  let (details, c2) :=
    if id_type == "sa_id" then
      (dset details "sa_id_no" ((dlookup c1.data "sa_id_no").getD .null),
       { c1 with data := dpop c1.data "sa_id_no" })
    else
      (dset (dset details "passport_no" ((dlookup c1.data "passport_no").getD .null))
         "passport_origin" ((dlookup c1.data "passport_origin").getD .null),
       { c1 with data := dpop (dpop c1.data "passport_no") "passport_origin" })
  let W1 := { W with identities := W.identities.map (fun i =>
      if i.id == c.registrant_id then
        { i with details := details,
                 identification_history := i.identification_history ++ [old_identification] }
      else i) }
  (W1, c2)

/-- `ValidateImplement.admin_change_subscription`. -/
def admin_change_subscription (W : World) (c : Change) : World :=
  if valTruthy (dlookup c.data "messageset") then
    let sid := (match dlookup c.data "subscription" with
      | some (.i n) => n.toNat
      | _ => 0)
    match W.subscriptions.find? (fun sub => sub.id == sid) with
    | none => W
    | some sub =>
      let W1 := updateSubscription W sub.id { active := some false }
      match W.messagesets.find? (fun ms => ms.short_name == valStr (dlookup c.data "messageset")) with
      | none => W1
      | some new_ms =>
        addSubReq W1
          { identity := c.registrant_id, messageset := new_ms.id,
            next_sequence_number := sub.next_sequence_number,
            lang := if dhas c.data "language" then valStr (dlookup c.data "language") else sub.lang,
            schedule := new_ms.default_schedule }
  else if valTruthy (dlookup c.data "language") then
    let sid := (match dlookup c.data "subscription" with
      | some (.i n) => n.toNat
      | _ => 0)
    updateSubscription W sid { lang := some (valStr (dlookup c.data "language")) }
  else W

/-- Strip a leading `whatsapp_` (`re.sub('^whatsapp_', '', short_name)`). -/
def stripWhatsapp (sn : String) : String :=
  if sn.startsWith "whatsapp_" then sn.drop 9 else sn

/-- `ValidateImplement.switch_channel`: mirror active subscriptions onto
the requested channel and record `old_channel`. -/
def switch_channel (W : World) (c : Change) : World × Change × Option JembiTag :=
  let channel := valStr (dlookup c.data "channel")
  let W1 := (getActiveSubs W c.registrant_id).foldl
    (fun w sub =>
      let sn := (findMessageset W sub.messageset).short_name
      if channel == "whatsapp" && !strContains sn "whatsapp" then
        let w := updateSubscription w sub.id { active := some false }
        let target := ((W.messagesets.find?
          (fun ms => ms.short_name == "whatsapp_" ++ sn)).map (·.id)).getD 0
        addSubReq w
          { identity := sub.identity, messageset := target,
            next_sequence_number := sub.next_sequence_number, lang := sub.lang,
            schedule := sub.schedule }
      else if channel == "sms" && strContains sn "whatsapp" then
        let w := updateSubscription w sub.id { active := some false }
        let target := ((W.messagesets.find?
          (fun ms => ms.short_name == stripWhatsapp sn)).map (·.id)).getD 0
        addSubReq w
          { identity := sub.identity, messageset := target,
            next_sequence_number := sub.next_sequence_number, lang := sub.lang,
            schedule := sub.schedule }
      else w) W
  let c1 := { c with
    data := dset c.data "old_channel" (.s (if channel == "sms" then "whatsapp" else "sms")) }
  (W1, c1, some .channelSwitch)

/-- The handler dispatch table of `ValidateImplement.run`.  An action
absent from the table makes Python call `None` (a crash), modelled as
`none`. -/
def dispatchChangeAction (W : World) (c : Change) : Option (World × Change × Option JembiTag) :=
  if c.action == "baby_switch" then
    let r := baby_switch W c; some (r.1, c, r.2)
  else if c.action == "pmtct_loss_switch" then
    let r := pmtct_loss_switch W c; some (r.1, c, r.2)
  else if c.action == "pmtct_loss_optout" then
    let r := pmtct_loss_optout W c; some (r.1, c, r.2)
  else if c.action == "pmtct_nonloss_optout" then
    let r := pmtct_nonloss_optout W c; some (r.1, c, r.2)
  else if c.action == "nurse_update_detail" then some (W, c, none)
  else if c.action == "nurse_change_msisdn" then some (W, c, none)
  else if c.action == "nurse_optout" then
    let r := nurse_optout W c; some (r.1, c, r.2)
  else if c.action == "momconnect_loss_switch" then
    let r := momconnect_loss_switch W c; some (r.1, c, r.2)
  else if c.action == "momconnect_loss_optout" then
    let r := momconnect_loss_optout W c; some (r.1, c, r.2)
  else if c.action == "momconnect_nonloss_optout" then
    let r := momconnect_nonloss_optout W c; some (r.1, c, r.2)
  else if c.action == "momconnect_change_language" then
    let r := momconnect_change_language W c; some (r.1, r.2, none)
  else if c.action == "momconnect_change_msisdn" then
    let r := momconnect_change_msisdn W c; some (r.1, r.2, none)
  else if c.action == "momconnect_change_identification" then
    let r := momconnect_change_identification W c; some (r.1, r.2, none)
  else if c.action == "admin_change_subscription" then
    some (admin_change_subscription W c, c, none)
  else if c.action == "switch_channel" then some (switch_channel W c)
  else none

/-- The observable outcome of one `ValidateImplement.run` invocation. -/
structure RunResult where
  ret : Bool
  change : Change
  world : World
  dispatched : Bool
  chained : Option JembiTag
deriving DecidableEq, Repr

/-- `ValidateImplement.run`: validate, and only on success dispatch the
action handler; when the handler returns a submission task, the chain
`[submit, remove_personally_identifiable_fields]` is enqueued
(`chained`). -/
def runChange (V : Validity) (W : World) (c : Change) : Option RunResult :=
  let v := validateChange V c
  if v.1 then
    match dispatchChangeAction W v.2 with
    | none => none
    | some (W1, c2, task) =>
      some { ret := true, change := c2, world := W1, dispatched := true, chained := task }
  else
    some { ret := false, change := v.2, world := W, dispatched := false, chained := none }

/-! ### PII lifecycle (`registrations/tasks.py`) -/

/-- The registration PII keys moved onto the identity by
`remove_personally_identifiable_fields`. -/
def piiFields : List String :=
  ["id_type", "mom_dob", "passport_no", "passport_origin", "sa_id_no",
   "language", "consent", "mom_given_name", "mom_family_name", "mom_email"]

/-- The identity-side keys pulled back by
`add_personally_identifiable_fields` (`language` travels as `lang_code`). -/
def piiIdentityFields : List String :=
  ["id_type", "mom_dob", "passport_no", "passport_origin", "sa_id_no",
   "lang_code", "consent", "mom_given_name", "mom_family_name", "mom_email"]

/-- `next(is_client.get_identity_by_address(...)['results'])` with the
`StopIteration` fallback to `create_identity`. -/
def lookupOrCreateByMsisdn (W : World) (m : String) : Identity × World :=
  match getIdentityByAddress W m with
  | i :: _ => (i, W)
  | [] => createIdentityWithMsisdn W m

/-- `field.replace(old, new)` as used on the pipeline's field names: the
keys are `msisdn_*`/`uuid_*` names whose single occurrence of the pattern
sits at the front, so replacing the leading occurrence is Python's
`str.replace`. -/
def renameKey (f old new : String) : String :=
  if f.data.take old.data.length = old.data then ⟨new.data ++ f.data.drop old.data.length⟩
  else f

/-- `remove_personally_identifiable_fields(registration_id)`
(`registrations/tasks.py`): move the PII keys onto the registrant's
identity (`language` stored as `lang_code`), then swap each `msisdn_*` key
for a `uuid_*` reference to the identity that owns (or is created for)
that address.  Python iterates the two `set(...).intersection(...)` field
sets in unspecified order; a fixed order is used here (the outcome is
order-independent because the keys are distinct). -/
def removePII (W : World) (r : Registration) : World × Registration :=
  let fields := piiFields.filter (fun f => dhas r.data f)
  let step1 : World × Registration :=
    if fields.isEmpty then (W, r)
    else
      let start : DataMap × DataMap := (getIdentityDetails W r.registrant_id, r.data)
      let moved := fields.foldl (fun (p : DataMap × DataMap) f =>
        (dset p.1 (if f == "language" then "lang_code" else f) ((dlookup p.2 f).getD .null),
         dpop p.2 f)) start
      (updateIdentityDetails W r.registrant_id moved.1, { r with data := moved.2 })
  let msisdn_fields := ["msisdn_device", "msisdn_registrant"].filter (fun f => dhas step1.2.data f)
  msisdn_fields.foldl (fun (p : World × Registration) f =>
    let m := valStr (dlookup p.2.data f)
    let popped := dpop p.2.data f
    let iw := lookupOrCreateByMsisdn p.1 m
    (iw.2, { p.2 with data := dset popped (renameKey f "msisdn" "uuid") (.s iw.1.id) })) step1

/-- Modelled from the spec: `utils.get_identity_msisdn` (absent from the
sources) resolves an identity reference back to an MSISDN "by reverse
address lookup" (§4.4): the identity's default msisdn, or its unique
msisdn when it has exactly one and none is marked default. -/
def getIdentityMsisdn (W : World) (iid : String) : Option String :=
  match getIdentity W iid with
  | none => none
  | some i =>
    match i.msisdns.find? (fun p => p.2.default == some true) with
    | some p => some p.1
    | none =>
      match i.msisdns with
      | [single] => some single.1
      | _ => none

/-- `add_personally_identifiable_fields(registration)`
(`registrations/tasks.py`): the in-memory rehydration — copy back the
identity-held PII keys that the record lacks (`lang_code` under
`language`), and resolve `uuid_*` references back to `msisdn_*` keys. -/
def addPII (W : World) (r : Registration) : Registration :=
  match getIdentity W r.registrant_id with
  | none => r
  | some ident =>
    let fields := piiIdentityFields.filter (fun f => dhas ident.details f && !dhas r.data f)
    let data1 := fields.foldl (fun d f =>
      dset d (if f == "lang_code" then "language" else f)
        ((dlookup ident.details f).getD .null)) r.data
    let uuid_fields := ["uuid_device", "uuid_registrant"].filter (fun f => dhas data1 f)
    let data2 := uuid_fields.foldl (fun d f =>
      match getIdentityMsisdn W (valStr (dlookup d f)) with
      | some m => if m == "" then d else dset d (renameKey f "uuid" "msisdn") (.s m)
      | none => d) data1
    { r with data := data2 }

/-! ### Retry policy (`HTTPRetryMixin`) and the Jembi push path -/

/-- An exception reaching a task's failure handler. -/
inductive Exc where
  | httpError (status : Nat)
  | connError
  | otherExc
deriving DecidableEq, Repr

/-- What a failure handler decides. -/
inductive RetryDecision where
  | retryAfter (delay : ℚ)
  | giveUp
deriving DecidableEq, Repr

/-- `HTTPRetryMixin.max_retries`. -/
def max_retries : Nat := 10

/-- `HTTPRetryMixin.delay_factor`. -/
def delay_factor : ℚ := 1

/-- `HTTPRetryMixin.jitter_percentage`. -/
def jitter_percentage : ℚ := 1 / 4

/-- The delay `HTTPRetryMixin.on_failure` computes before deciding:
`(2 ** retries) * delay_factor * (1 + random() * jitter_percentage)`,
with `u` the uniform draw from `[0, 1)`. -/
def onFailureDelay (retries : Nat) (u : ℚ) : ℚ :=
  ((2 : ℚ) ^ retries * delay_factor) * (1 + u * jitter_percentage)

/-- `HTTPRetryMixin.on_failure`: retry an `HTTPError` with a 5xx status or
a `ConnectionError` while under `max_retries`; anything else falls
through (permanent failure). -/
def httpRetryOnFailure (retries : Nat) (exc : Exc) (u : ℚ) : RetryDecision :=
  match exc with
  | .httpError status =>
    if retries < max_retries && (500 ≤ status && status < 600) then
      .retryAfter (onFailureDelay retries u)
    else .giveUp
  | .connError =>
    if retries < max_retries then .retryAfter (onFailureDelay retries u) else .giveUp
  | .otherExc => .giveUp

/-- Drive a task under `HTTPRetryMixin`: `outcome k` is the exception
raised by attempt number `k` (`none` = success), `u k` the jitter draw
before retry `k+1`.  Returns (succeeded, attempts made, delays used).
The fuel is `max_retries + 1`, enough for every chain the mixin allows. -/
def runAttempts (outcome : Nat → Option Exc) (u : Nat → ℚ) :
    Nat → Nat → Bool × Nat × List ℚ
  | 0, _ => (false, 0, [])
  | fuel + 1, k =>
    match outcome k with
    | none => (true, 1, [])
    | some e =>
      match httpRetryOnFailure k e (u k) with
      | .retryAfter d =>
        let rest := runAttempts outcome u fuel (k + 1)
        (rest.1, rest.2.1 + 1, d :: rest.2.2)
      | .giveUp => (false, 1, [])

/-- A whole submission under the retry mixin, starting at attempt 0. -/
def submitWithRetries (outcome : Nat → Option Exc) (u : Nat → ℚ) : Bool × Nat × List ℚ :=
  runAttempts outcome u (max_retries + 1) 0

/-- How one invocation of `BasePushOptoutToJembi.run` ends, given what the
POST did. -/
inductive PushResult where
  | completed
  | retryRaised
  | permanentRaised (payloadLogged : Bool)
  | swallowed
deriving DecidableEq, Repr

/-- `BasePushOptoutToJembi.run`'s exception handling: an `HTTPError` is
retried only when `500 < status < 599`, otherwise the payload is logged
and the error re-raised; every non-HTTP exception (connection failures
included) is logged and swallowed, so the task completes normally. -/
def basePushOptoutResult (o : Option Exc) : PushResult :=
  match o with
  | none => .completed
  | some (.httpError status) =>
    if 500 < status && status < 599 then .retryRaised else .permanentRaised true
  | some .connError => .swallowed
  | some .otherExc => .swallowed

/-! ### The submit → anonymize chain (`ValidateImplement.run` lines
879–883): Celery runs the second task of `chain(submit, remove_pii)` only
when the first returns without raising. -/

/-- How the submit step of one record's chain finally ends. -/
inductive FinalSubmitOutcome where
  | success
  | connFailureSwallowed
  | clientErrorRaised
  | retriesExhausted
deriving DecidableEq, Repr

/-- Whether the submit task returns normally (Celery then fires the next
chain link); derived from `basePushOptoutResult`: a swallowed exception
also counts as normal completion. -/
def submitTaskCompletes : FinalSubmitOutcome → Bool
  | .success => true
  | .connFailureSwallowed => true
  | .clientErrorRaised => false
  | .retriesExhausted => false

/-- A permanent, non-retried failure of the submit step. -/
def isPermanentSubmitFailure : FinalSubmitOutcome → Bool
  | .success => false
  | .connFailureSwallowed => true
  | .clientErrorRaised => true
  | .retriesExhausted => true

/-- The pipeline stages after the executor, in execution order. -/
inductive Stage where
  | submitStage
  | anonymizeStage
deriving DecidableEq, Repr

/-- The stages the chain `[submit, remove_personally_identifiable_fields]`
actually runs, in order, for a given submit outcome. -/
def chainStages (o : FinalSubmitOutcome) : List Stage :=
  [.submitStage] ++ (if submitTaskCompletes o then [.anonymizeStage] else [])

/-- Whether anonymization runs for the record. -/
def anonymizeRuns (o : FinalSubmitOutcome) : Bool :=
  (chainStages o).contains .anonymizeStage

/-! ### Submission builders (`changes/tasks.py`) -/

/-- A JSON payload value. -/
inductive JVal where
  | s (v : String)
  | n (v : Int)
  | null
deriving DecidableEq, Repr

/-- A JSON object as an ordered association list. -/
abbrev JsonObj := List (String × JVal)

/-- Key lookup in a payload. -/
def jlookup (j : JsonObj) (k : String) : Option JVal :=
  (j.find? (fun p => p.1 == k)).map (·.2)

/-- An optional string as a JSON value (Python `None` → `null`). -/
def jstr (v : Option String) : JVal :=
  match v with
  | some s => .s s
  | none => .null

/-- An optional number as a JSON value. -/
def jnum (v : Option Nat) : JVal :=
  match v with
  | some n => .n n
  | none => .null

/-- `BasePushOptoutToJembi.get_optout_reason`: the closed reason-code
table (`dict.get`: an unknown reason yields `None`). -/
def get_optout_reason (reason : String) : Option Nat :=
  if reason == "miscarriage" then some 1
  else if reason == "stillbirth" then some 2
  else if reason == "babyloss" then some 3
  else if reason == "not_useful" then some 4
  else if reason == "other" then some 5
  else if reason == "unknown" then some 6
  else if reason == "job_change" then some 7
  else if reason == "number_owner_change" then some 8
  else if reason == "not_hiv_pos" then some 9
  else if reason == "sms_failure" then some 10
  else none

/-- `BasePushOptoutToJembi.get_identity_address`: the first address
marked default, else the last address iterated, else `None`. -/
def get_identity_address (i : Identity) : Option String :=
  match i.msisdns.find? (fun p => p.2.default.getD false) with
  | some p => some p.1
  | none => (i.msisdns.getLast?).map (·.1)

/-- `get_timestamp(change)`: the record's creation timestamp, already
rendered (`strftime('%Y%m%d%H%M%S')` is kept abstract in the string). -/
def changeTimestamp (c : Change) : String := c.created_at

/-- `PushMomconnectOptoutToJembi.build_jembi_json` (type 4). -/
def build_momconnect_optout_json (W : World) (c : Change) : JsonObj :=
  let identity := (getIdentity W c.registrant_id).getD ⟨c.registrant_id, [], [], []⟩
  let address := get_identity_address identity
  [("encdate", .s (changeTimestamp c)), ("mha", .n 1), ("swt", .n 1),
   ("cmsisdn", jstr address), ("dmsisdn", jstr address), ("type", .n 4),
   ("optoutreason", jnum (get_optout_reason (valStr (dlookup c.data "reason"))))]

/-- `PushPMTCTOptoutToJembi.build_jembi_json` (type 10). -/
def build_pmtct_optout_json (W : World) (c : Change) : JsonObj :=
  let identity := (getIdentity W c.registrant_id).getD ⟨c.registrant_id, [], [], []⟩
  let address := get_identity_address identity
  [("encdate", .s (changeTimestamp c)), ("mha", .n 1), ("swt", .n 1),
   ("cmsisdn", jstr address), ("dmsisdn", jstr address), ("type", .n 10),
   ("optoutreason", jnum (get_optout_reason (valStr (dlookup c.data "reason"))))]

/-- `PushMomconnectBabyLossToJembi.build_jembi_json` (type 5). -/
def build_momconnect_babyloss_json (W : World) (c : Change) : JsonObj :=
  let identity := (getIdentity W c.registrant_id).getD ⟨c.registrant_id, [], [], []⟩
  let address := get_identity_address identity
  [("encdate", .s (changeTimestamp c)), ("mha", .n 1), ("swt", .n 1),
   ("cmsisdn", jstr address), ("dmsisdn", jstr address), ("type", .n 5)]

/-- `PushMomconnectBabySwitchToJembi.build_jembi_json` (type 11). -/
def build_momconnect_babyswitch_json (W : World) (c : Change) : JsonObj :=
  let identity := (getIdentity W c.registrant_id).getD ⟨c.registrant_id, [], [], []⟩
  let address := get_identity_address identity
  [("encdate", .s (changeTimestamp c)), ("mha", .n 1), ("swt", .n 1),
   ("cmsisdn", jstr address), ("dmsisdn", jstr address), ("type", .n 11)]

/-- `PushChannelSwitchToJembi.build_jembi_json` (type 12). -/
def build_channel_switch_json (W : World) (c : Change) : JsonObj :=
  let identity := (getIdentity W c.registrant_id).getD ⟨c.registrant_id, [], [], []⟩
  let address := get_identity_address identity
  [("encdate", .s (changeTimestamp c)), ("mha", .n 1), ("swt", .n 1),
   ("cmsisdn", jstr address), ("dmsisdn", jstr address), ("type", .n 12),
   ("channel_current", .s (valStr (dlookup c.data "old_channel"))),
   ("channel_new", .s (valStr (dlookup c.data "channel")))]

/-- `PushNurseconnectOptoutToJembi.get_nurse_id`. -/
def get_nurse_id (id_type id_no passport_origin mom_msisdn : String) : String :=
  if id_type == "sa_id" then id_no ++ "^^^ZAF^NI"
  else if id_type == "passport" then id_no ++ "^^^" ++ passport_origin.toUpper ++ "^PPN"
  else (mom_msisdn.replace "+" "") ++ "^^^ZAF^TEL"

/-- `'%Y-%m-%d'` re-rendered as `'%Y%m%d'` (the `strptime`/`strftime`
round trip of `get_dob`). -/
def dobFormat (s : String) : String :=
  String.join (s.splitOn "-")

/-- `PushNurseconnectOptoutToJembi.get_nurse_registration`: the latest
registration for the registrant, rehydrated when it was already
anonymized; `none` when no registration exists (Python crashes there). -/
def get_nurse_registration (W : World) (c : Change) : Option Registration :=
  let regs := W.registrations.filter (fun r => r.registrant_id == c.registrant_id)
  let latest := regs.foldl (fun acc r =>
    match acc with
    | none => some r
    | some a => if a.created_at < r.created_at then some r else acc) none
  latest.map (fun reg => if dhas reg.data "msisdn_registrant" then reg else addPII W reg)

/-- `PushNurseconnectOptoutToJembi.build_jembi_json` (type 8).  Note the
source's `mom_db`/`mom_dob` key inconsistency in the `dob` guard, kept
as-is. -/
def build_nurseconnect_optout_json (W : World) (c : Change) : Option JsonObj := do
  let reg ← get_nurse_registration W c
  let cmsisdn ← dlookup reg.data "msisdn_registrant"
  let dmsisdn ← dlookup reg.data "msisdn_device"
  let faccode ← dlookup reg.data "faccode"
  pure [("encdate", .s (changeTimestamp c)), ("mha", .n 1), ("swt", .n 1), ("type", .n 8),
    ("cmsisdn", cmsisdn |> fun v => .s (valStr (some v))),
    ("dmsisdn", dmsisdn |> fun v => .s (valStr (some v))),
    ("rmsisdn", .null),
    ("faccode", faccode |> fun v => .s (valStr (some v))),
    ("id", .s (get_nurse_id (valStr (dlookup reg.data "id_type"))
      (if valStr (dlookup reg.data "id_type") == "sa_id" then
        valStr (dlookup reg.data "sa_id_no")
       else valStr (dlookup reg.data "passport_no"))
      (valStr (dlookup reg.data "passport_origin"))
      (valStr (dlookup reg.data "msisdn_registrant")))),
    ("dob", if valTruthy (dlookup reg.data "mom_db") then
        .s (dobFormat (valStr (dlookup reg.data "mom_dob")))
      else .null),
    ("optoutreason", jnum (get_optout_reason (valStr (dlookup c.data "reason"))))]

/-! ### Association-list lemmas -/

@[simp] theorem dlookup_nil (k : String) : dlookup [] k = none := rfl

@[simp] theorem dlookup_cons (p : String × Val) (d : DataMap) (k : String) :
    dlookup (p :: d) k = if p.1 == k then some p.2 else dlookup d k := by
  by_cases h : p.1 == k <;> simp [dlookup, List.find?_cons, h]

@[simp] theorem dhas_nil (k : String) : dhas [] k = false := rfl

@[simp] theorem dhas_cons (p : String × Val) (d : DataMap) (k : String) :
    dhas (p :: d) k = (p.1 == k || dhas d k) := by
  by_cases h : p.1 == k <;> simp [dhas, List.find?_cons, h]

theorem dhas_eq_isSome (d : DataMap) (k : String) : dhas d k = (dlookup d k).isSome := by
  simp [dhas, dlookup]

theorem dlookup_dset_self (d : DataMap) (k : String) (v : Val) :
    dlookup (dset d k v) k = some v := by
  induction d with
  | nil => simp [dset]
  | cons p d ih =>
    by_cases h : p.1 == k
    · simp [dset, h]
    · simp [dset, h, ih]

theorem dlookup_dset_ne (d : DataMap) (k k' : String) (v : Val) (h : k' ≠ k) :
    dlookup (dset d k v) k' = dlookup d k' := by
  induction d with
  | nil => simp [dset, Ne.symm h]
  | cons p d ih =>
    by_cases hp : p.1 == k
    · simp [dset, hp, Ne.symm h, (by simpa using hp : p.1 = k)]
    · simp [dset, hp, ih]

theorem dhas_dset (d : DataMap) (k k' : String) (v : Val) :
    dhas (dset d k v) k' = (k == k' || dhas d k') := by
  induction d with
  | nil => simp [dset]
  | cons p d ih =>
    by_cases hp : p.1 == k
    · have hpk : p.1 = k := by simpa using hp
      simp [dset, hp, hpk]
    · simp [dset, hp, ih]
      cases hkk : (p.1 == k') <;> simp [Bool.or_comm, Bool.or_left_comm]

@[simp] theorem dpop_nil (k : String) : dpop [] k = [] := rfl

@[simp] theorem dpop_cons (p : String × Val) (d : DataMap) (k : String) :
    dpop (p :: d) k = if p.1 == k then dpop d k else p :: dpop d k := by
  by_cases h : p.1 == k <;> simp [dpop, List.filter_cons, bne, h]

theorem dlookup_dpop_self (d : DataMap) (k : String) : dlookup (dpop d k) k = none := by
  induction d with
  | nil => rfl
  | cons p d ih =>
    by_cases h : p.1 == k <;> simp [h, ih]

theorem dlookup_dpop_ne (d : DataMap) (k k' : String) (h : k' ≠ k) :
    dlookup (dpop d k) k' = dlookup d k' := by
  induction d with
  | nil => rfl
  | cons p d ih =>
    by_cases hp : p.1 == k
    · have hpk : p.1 = k := by simpa using hp
      have hne : (p.1 == k') = false := by simp [hpk, Ne.symm h]
      simp [hp, hne, ih]
    · simp [hp, ih]

end NdohHub

namespace NdohHub

/-- C10: for every Change and every Registration, regardless of action
type and even when all of the action's own field checks pass, a
`registrant_id` that is not a valid UUID makes `validate` return false
and puts the error string "Invalid UUID registrant_id" into the recorded
`invalid_fields`; validation success therefore implies a well-formed
registrant UUID. -/
theorem invalidUuidRegistrantFailsValidation (V : Validity) (c : Change) (r : Registration)
    (hc : V.is_valid_uuid (.s c.registrant_id) = false)
    (hr : V.is_valid_uuid (.s r.registrant_id) = false) :
    (validateChange V c).1 = false ∧
    "Invalid UUID registrant_id" ∈ collectChangeErrors V c ∧
    dlookup (validateChange V c).2.data "invalid_fields" = some (.strs (collectChangeErrors V c)) ∧
    (validateRegistration V r).1 = false ∧
    "Invalid UUID registrant_id" ∈ collectRegErrors V r ∧
    dlookup (validateRegistration V r).2.data "invalid_fields" =
      some (.strs (collectRegErrors V r)) := by
  obtain ⟨tc, htc⟩ : ∃ t, collectChangeErrors V c = "Invalid UUID registrant_id" :: t := by
    unfold collectChangeErrors
    rw [hc]
    exact ⟨_, rfl⟩
  obtain ⟨tr, htr⟩ : ∃ t, collectRegErrors V r = "Invalid UUID registrant_id" :: t := by
    unfold collectRegErrors
    rw [hr]
    exact ⟨_, rfl⟩
  refine ⟨?_, ?_, ?_, ?_, ?_, ?_⟩
  · simp [validateChange, htc]
  · simp [htc]
  · simp [validateChange, htc, dlookup_dset_self]
  · simp [validateRegistration, htr]
  · simp [htr]
  · simp [validateRegistration, htr, dlookup_dset_self]

/-- C2: `validated` is set true only when the required-field checks for
the record's action produce zero errors; when validation produces any
error, `validated` stays false, `data.invalid_fields` is set to the error
list, and `run` returns false without dispatching a handler, so no
execute, submit or anonymize stage runs for that record. -/
theorem validatedOnlyOnCleanChecksAndTerminal (V : Validity) (W : World) (c : Change)
    (h0 : c.validated = false) :
    ((validateChange V c).2.validated = true → collectChangeErrors V c = []) ∧
    (collectChangeErrors V c ≠ [] →
      (validateChange V c).1 = false ∧
      (validateChange V c).2.validated = false ∧
      dlookup (validateChange V c).2.data "invalid_fields" =
        some (.strs (collectChangeErrors V c)) ∧
      runChange V W c =
        some { ret := false, change := (validateChange V c).2, world := W,
               dispatched := false, chained := none }) := by
  cases hE : collectChangeErrors V c with
  | nil => exact ⟨fun _ => rfl, fun h => absurd rfl h⟩
  | cons e t =>
    refine ⟨?_, fun _ => ⟨?_, ?_, ?_, ?_⟩⟩
    · intro hv
      exfalso
      rw [show (validateChange V c).2.validated = c.validated by simp [validateChange, hE], h0]
        at hv
      exact Bool.false_ne_true hv
    · simp [validateChange, hE]
    · simp [validateChange, hE, h0]
    · simp [validateChange, hE, dlookup_dset_self]
    · simp [runChange, validateChange, hE]

/-- C6: a loss-switch change (`pmtct_loss_switch` or
`momconnect_loss_switch`) whose registrant has zero active subscriptions
aborts with `loss_switch` returning false: the world is untouched (no
subscription deactivated, no SubscriptionRequest created) and no
compliance submission task is produced. -/
theorem lossSwitchZeroActiveSubsIsNoOp (W : World) (c : Change)
    (h : getActiveSubs W c.registrant_id = []) :
    loss_switch W c = (W, false) ∧
    pmtct_loss_switch W c = (W, none) ∧
    momconnect_loss_switch W c = (W, none) := by
  have h1 : loss_switch W c = (W, false) := by
    simp [loss_switch, h]
  exact ⟨h1, by simp [pmtct_loss_switch, h1], by simp [momconnect_loss_switch, h1]⟩

end NdohHub

namespace NdohHub

/-- An all-rejecting validator instantiation (witness material). -/
def allFalseV : Validity :=
  { is_valid_uuid := fun _ => false, is_valid_lang := fun _ => false,
    is_valid_msisdn := fun _ => false, is_valid_date := fun _ => false,
    is_valid_edd := fun _ => false, is_valid_sa_id_no := fun _ => false,
    is_valid_passport_no := fun _ => false, is_valid_passport_origin := fun _ => false,
    is_valid_faccode := fun _ => false, is_valid_sanc_no := fun _ => false,
    is_valid_persal_no := fun _ => false, is_valid_id_type := fun _ => false,
    get_baby_age := fun _ => 0 }

/-- An all-accepting validator instantiation (witness material). -/
def allTrueV : Validity :=
  { is_valid_uuid := fun _ => true, is_valid_lang := fun _ => true,
    is_valid_msisdn := fun _ => true, is_valid_date := fun _ => true,
    is_valid_edd := fun _ => true, is_valid_sa_id_no := fun _ => true,
    is_valid_passport_no := fun _ => true, is_valid_passport_origin := fun _ => true,
    is_valid_faccode := fun _ => true, is_valid_sanc_no := fun _ => true,
    is_valid_persal_no := fun _ => true, is_valid_id_type := fun _ => true,
    get_baby_age := fun _ => 0 }

/-- A world with no state at all. -/
def emptyWorld : World :=
  { subscriptions := [], messagesets := [], identities := [], subreqs := [],
    registrations := [], freshIds := [] }

def cexBadChange : Change :=
  ⟨1, "not-a-uuid", "switch_channel", [], false, "20160101000000"⟩

def cexBadReg : Registration :=
  ⟨1, "not-a-uuid", "pmtct_prebirth", [], false, ⟨"patient"⟩, 0⟩

theorem invalidUuidRegistrantFailsValidation_witness :
    (validateChange allFalseV cexBadChange).1 = false ∧
    "Invalid UUID registrant_id" ∈ collectChangeErrors allFalseV cexBadChange ∧
    dlookup (validateChange allFalseV cexBadChange).2.data "invalid_fields" =
      some (.strs (collectChangeErrors allFalseV cexBadChange)) ∧
    (validateRegistration allFalseV cexBadReg).1 = false ∧
    "Invalid UUID registrant_id" ∈ collectRegErrors allFalseV cexBadReg ∧
    dlookup (validateRegistration allFalseV cexBadReg).2.data "invalid_fields" =
      some (.strs (collectRegErrors allFalseV cexBadReg)) :=
  invalidUuidRegistrantFailsValidation allFalseV cexBadChange cexBadReg rfl rfl

theorem validatedOnlyOnCleanChecks_witness :
    (validateChange allTrueV cexBadChange).1 = false ∧
    (validateChange allTrueV cexBadChange).2.validated = false ∧
    dlookup (validateChange allTrueV cexBadChange).2.data "invalid_fields" =
      some (.strs (collectChangeErrors allTrueV cexBadChange)) ∧
    runChange allTrueV emptyWorld cexBadChange =
      some { ret := false, change := (validateChange allTrueV cexBadChange).2,
             world := emptyWorld, dispatched := false, chained := none } :=
  (validatedOnlyOnCleanChecksAndTerminal allTrueV emptyWorld cexBadChange rfl).2 (by decide)

def cexLossChange : Change :=
  ⟨1, "mom00001-63e2-4acc-9b94-26663b9bc267", "pmtct_loss_switch",
   [("reason", .s "miscarriage")], true, "20160101000000"⟩

theorem lossSwitchZeroActiveSubs_witness :
    loss_switch emptyWorld cexLossChange = (emptyWorld, false) ∧
    pmtct_loss_switch emptyWorld cexLossChange = (emptyWorld, none) ∧
    momconnect_loss_switch emptyWorld cexLossChange = (emptyWorld, none) :=
  lossSwitchZeroActiveSubsIsNoOp emptyWorld cexLossChange rfl

/-- C3, counterexample: no batch start and messages-per-cycle constants
make the spec's formula `(position - batch_start) * mpc + 1` (clamped to
1) reproduce the src test expectations for `pmtct_prebirth.patient.2`:
weeks 31 and 32 demand sequences 2 and 4, forcing `mpc = 2`, under which
`(31 - start) * 2 = 1` has no integer solution. -/
theorem specSequenceFormulaRefutedByTests :
    ¬ ∃ start mpc : Int, ∀ row ∈ seqTestTable,
      row.1 = "pmtct_prebirth.patient.2" →
      row.2.2.2.2 = max ((row.2.1 - start) * mpc + 1) 1 := by
  rintro ⟨s, m, h⟩
  have h31 := h ("pmtct_prebirth.patient.2", 31, (12, 112, 2)) (by decide) rfl
  have h32 := h ("pmtct_prebirth.patient.2", 32, (12, 112, 4)) (by decide) rfl
  simp only [] at h31 h32
  have e31 : (31 - s) * m + 1 = 2 := by
    rcases le_total ((31 - s) * m + 1) 1 with hle | hle
    · rw [max_eq_right hle] at h31; omega
    · rw [max_eq_left hle] at h31; omega
  have e32 : (32 - s) * m + 1 = 4 := by
    rcases le_total ((32 - s) * m + 1) 1 with hle | hle
    · rw [max_eq_right hle] at h32; omega
    · rw [max_eq_left hle] at h32; omega
  have hm : m = 2 := by nlinarith [e31, e32]
  rw [hm] at e31
  omega

/-- C3, amended: the sequence number is
`max 1 ((position - batch_start) * messages_per_cycle)` - without the
spec's `+ 1` - with batch starts 6/30/35 for pmtct-prebirth and 0/1 for
pmtct-postbirth, a cap of 20 for pmtct-prebirth batch 3 from week 42, and
1 for every other message set.  So amended it reproduces every row of the
embedded `test_get_messageset_schedule_sequence` table, is never
non-positive, and past the clamp each further week adds the schedule's
per-cycle message count. -/
theorem sequenceNumberMatchesTestsAndClamps :
    (seqTestTable.all fun row =>
      getMessagesetScheduleSequence seqFixtureWorld row.1 row.2.1 == some row.2.2) = true ∧
    (∀ short_name weeks, 1 ≤ resolveSeq short_name weeks) ∧
    (∀ weeks, 7 ≤ weeks →
      resolveSeq "pmtct_prebirth.patient.1" (weeks + 1) -
        resolveSeq "pmtct_prebirth.patient.1" weeks = messagesPerCycle 111) ∧
    (∀ weeks, 31 ≤ weeks →
      resolveSeq "pmtct_prebirth.patient.2" (weeks + 1) -
        resolveSeq "pmtct_prebirth.patient.2" weeks = messagesPerCycle 112) ∧
    (∀ weeks, 36 ≤ weeks → weeks ≤ 40 →
      resolveSeq "pmtct_prebirth.patient.3" (weeks + 1) -
        resolveSeq "pmtct_prebirth.patient.3" weeks = messagesPerCycle 113) := by
  refine ⟨by decide, fun sn w => ?_, fun w hw => ?_, fun w hw => ?_, fun w hw hw' => ?_⟩
  · exact le_max_right _ _
  · have hre : ∀ x : Int, resolveSeq "pmtct_prebirth.patient.1" x = max ((x - 6) * 1) 1 := by
      intro x; simp [resolveSeq]
    rw [hre, hre, max_eq_left (by omega), max_eq_left (by omega)]
    simp [messagesPerCycle]
  · have hre : ∀ x : Int, resolveSeq "pmtct_prebirth.patient.2" x = max ((x - 30) * 2) 1 := by
      intro x; simp [resolveSeq]
    rw [hre, hre, max_eq_left (by omega), max_eq_left (by omega)]
    simp [messagesPerCycle]
    omega
  · have hre : ∀ x : Int, resolveSeq "pmtct_prebirth.patient.3" x =
        max (if 42 ≤ x then (20 : Int) else (x - 35) * 3) 1 := by
      intro x; simp [resolveSeq]
    rw [hre, hre, if_neg (by omega), if_neg (by omega), max_eq_left (by omega),
      max_eq_left (by omega)]
    simp [messagesPerCycle]
    omega

end NdohHub

namespace NdohHub

theorem sequenceNumberMatchesTests_witness :
    1 ≤ resolveSeq "pmtct_prebirth.patient.1" 9 ∧
    resolveSeq "pmtct_prebirth.patient.2" 32 - resolveSeq "pmtct_prebirth.patient.2" 31 =
      messagesPerCycle 112 ∧
    resolveSeq "pmtct_prebirth.patient.3" 37 - resolveSeq "pmtct_prebirth.patient.3" 36 =
      messagesPerCycle 113 :=
  ⟨sequenceNumberMatchesTestsAndClamps.2.1 "pmtct_prebirth.patient.1" 9,
   sequenceNumberMatchesTestsAndClamps.2.2.2.1 31 (by norm_num),
   sequenceNumberMatchesTestsAndClamps.2.2.2.2 36 (by norm_num) (by norm_num)⟩

end NdohHub

namespace NdohHub

/-- C5, counterexample: a connection failure during the Jembi push is
swallowed by the generic exception handler, so the submit task completes
normally and the chained anonymize stage still runs even though the
submission ended in a permanent, non-retried failure. -/
theorem swallowedConnFailureStillAnonymizes :
    basePushOptoutResult (some .connError) = .swallowed ∧
    isPermanentSubmitFailure .connFailureSwallowed = true ∧
    anonymizeRuns .connFailureSwallowed = true := by
  refine ⟨rfl, rfl, rfl⟩

/-- C5, amended: anonymization runs only after the submit task of the
chain, and exactly when that task returns without raising - after a
success or a swallowed non-HTTP failure; it does not run when the submit
task raises (a re-raised client error or exhausted retries). -/
theorem anonymizeExactlyAfterSubmitCompletes :
    (∀ o, (chainStages o).head? = some .submitStage) ∧
    (∀ o, anonymizeRuns o = submitTaskCompletes o) ∧
    anonymizeRuns .clientErrorRaised = false ∧
    anonymizeRuns .retriesExhausted = false ∧
    anonymizeRuns .success = true := by
  refine ⟨fun o => ?_, fun o => ?_, rfl, rfl, rfl⟩ <;> cases o <;> rfl

/-- C4, counterexample: on the `BasePushOptoutToJembi.run` submission
path an HTTP 500 response (a 5xx status) is not retried - the guard is
`500 < status < 599` - and a connection failure is swallowed without any
retry, contradicting the claim that every 5xx or connection failure is
retried with exponential backoff on every compliance submission. -/
theorem jembiPushPathNotRetrying :
    basePushOptoutResult (some (.httpError 500)) = .permanentRaised true ∧
    basePushOptoutResult (some .connError) = .swallowed := ⟨rfl, rfl⟩

/-- Helper for the 503-retry chain: fuel-indexed characterization. -/
theorem runAttempts503 (u : Nat → ℚ) (N : Nat) (hN : N ≤ 10) :
    ∀ fuel j, j + fuel = 11 → j ≤ N →
    runAttempts (fun i => if i < N then some (.httpError 503) else none) u fuel j =
      (true, N + 1 - j, (List.range' j (N - j)).map (fun k => onFailureDelay k (u k))) := by
  intro fuel
  induction fuel with
  | zero => intro j hj hjN; omega
  | succ fuel ih =>
    intro j hj hjN
    by_cases hje : j = N
    · subst hje
      simp [runAttempts]
    · have hlt : j < N := lt_of_le_of_ne hjN hje
      have hout : (if j < N then some (Exc.httpError 503) else none) = some (.httpError 503) :=
        if_pos hlt
      have hdec : httpRetryOnFailure j (.httpError 503) (u j) =
          .retryAfter (onFailureDelay j (u j)) := by
        have hj10 : j < max_retries := by simp [max_retries]; omega
        simp [httpRetryOnFailure, hj10]
      have hrec := ih (j + 1) (by omega) (by omega)
      simp only [runAttempts, hout, hdec, hrec, Prod.mk.injEq, true_and]
      constructor
      · omega
      · have hNj : N - j = (N - (j + 1)) + 1 := by omega
        rw [hNj, List.range'_succ]
        simp

/-- C4, amended: the retry behaviour is per path.  Submissions under
`HTTPRetryMixin` retry 5xx responses (500 inclusive) and connection
failures while under `max_retries = 10`, with the k-th delay in
`[2^k, 2^k * (1 + jitter_percentage)]`; a 4xx response gets exactly one
attempt; N consecutive 503s followed by success complete in N + 1
attempts for N up to `max_retries`.  The `BasePushOptoutToJembi` path
instead retries only statuses strictly between 500 and 599 and treats
4xx as permanent, logging the payload. -/
theorem retryPolicyPerPath (kk status : Nat) (u uu : ℚ) (N : Nat) (us : Nat → ℚ)
    (hk : kk < max_retries) (h5 : 500 ≤ status) (h5' : status < 600)
    (hu0 : 0 ≤ u) (hu1 : u ≤ 1) (hN : N ≤ max_retries) :
    (httpRetryOnFailure kk (.httpError status) u = .retryAfter (onFailureDelay kk u) ∧
     (2 : ℚ) ^ kk ≤ onFailureDelay kk u ∧
     onFailureDelay kk u ≤ (2 : ℚ) ^ kk * (1 + jitter_percentage)) ∧
    httpRetryOnFailure kk .connError uu = .retryAfter (onFailureDelay kk uu) ∧
    (∀ s', 400 ≤ s' → s' < 500 → ∀ uf : Nat → ℚ, ∀ oc : Nat → Option Exc,
      oc 0 = some (.httpError s') → submitWithRetries oc uf = (false, 1, [])) ∧
    (submitWithRetries (fun i => if i < N then some (.httpError 503) else none) us =
      (true, N + 1, (List.range N).map (fun k => onFailureDelay k (us k)))) ∧
    (∀ s', 500 < s' → s' < 599 →
      basePushOptoutResult (some (.httpError s')) = .retryRaised) ∧
    (∀ s', 400 ≤ s' → s' ≤ 500 →
      basePushOptoutResult (some (.httpError s')) = .permanentRaised true) := by
  refine ⟨⟨?_, ?_, ?_⟩, ?_, ?_, ?_, ?_, ?_⟩
  · simp [httpRetryOnFailure, hk, h5, h5']
  · have h2 : (0 : ℚ) < 2 ^ kk := by positivity
    simp only [onFailureDelay, delay_factor, jitter_percentage, mul_one]
    nlinarith
  · have h2 : (0 : ℚ) < 2 ^ kk := by positivity
    simp only [onFailureDelay, delay_factor, jitter_percentage, mul_one]
    nlinarith
  · simp [httpRetryOnFailure, hk]
  · intro s' h4a h4b uf oc hoc
    have hns : ¬ (500 ≤ s') := by omega
    simp [submitWithRetries, runAttempts, hoc, httpRetryOnFailure, hns]
  · have := runAttempts503 us N (by simpa [max_retries] using hN) 11 0 rfl (Nat.zero_le N)
    simp only [submitWithRetries, max_retries]
    rw [this]
    simp [List.range_eq_range']
  · intro s' hs hs'
    simp [basePushOptoutResult, hs, hs']
  · intro s' hs hs'
    have h1 : ¬ (500 < s') := by omega
    simp [basePushOptoutResult, h1]

end NdohHub

namespace NdohHub

theorem retryPolicyPerPath_witness :
    (httpRetryOnFailure 0 (.httpError 503) (1/2) = .retryAfter (onFailureDelay 0 (1/2)) ∧
     (2 : ℚ) ^ 0 ≤ onFailureDelay 0 (1/2) ∧
     onFailureDelay 0 (1/2) ≤ (2 : ℚ) ^ 0 * (1 + jitter_percentage)) ∧
    httpRetryOnFailure 0 .connError (1/3) = .retryAfter (onFailureDelay 0 (1/3)) ∧
    (∀ s', 400 ≤ s' → s' < 500 → ∀ uf : Nat → ℚ, ∀ oc : Nat → Option Exc,
      oc 0 = some (.httpError s') → submitWithRetries oc uf = (false, 1, [])) ∧
    (submitWithRetries (fun i => if i < 2 then some (.httpError 503) else none) (fun _ => 0) =
      (true, 2 + 1, (List.range 2).map (fun k => onFailureDelay k ((fun _ => (0 : ℚ)) k)))) ∧
    (∀ s', 500 < s' → s' < 599 →
      basePushOptoutResult (some (.httpError s')) = .retryRaised) ∧
    (∀ s', 400 ≤ s' → s' ≤ 500 →
      basePushOptoutResult (some (.httpError s')) = .permanentRaised true) :=
  retryPolicyPerPath 0 503 (1/2) (1/3) 2 (fun _ => 0)
    (by norm_num [max_retries]) (by norm_num) (by norm_num)
    (by norm_num) (by norm_num) (by norm_num [max_retries])

end NdohHub

namespace NdohHub

/-- C9: every compliance payload built by the submission builders carries
the fixed closed table's numeric `type` code for its report family:
optout = 4, baby-loss = 5, nurse-optout = 8, baby-switch = 11,
channel-switch = 12. -/
theorem jembiReportTypeCodesFixed (W : World) (c : Change) :
    jlookup (build_momconnect_optout_json W c) "type" = some (.n 4) ∧
    jlookup (build_momconnect_babyloss_json W c) "type" = some (.n 5) ∧
    jlookup (build_nurseconnect_optout_json W c |>.getD []) "type" =
      (build_nurseconnect_optout_json W c).map (fun _ => .n 8) ∧
    jlookup (build_momconnect_babyswitch_json W c) "type" = some (.n 11) ∧
    jlookup (build_channel_switch_json W c) "type" = some (.n 12) := by
  refine ⟨?_, ?_, ?_, ?_, ?_⟩
  · simp [build_momconnect_optout_json, jlookup]
  · simp [build_momconnect_babyloss_json, jlookup]
  · cases h : build_nurseconnect_optout_json W c with
    | none => simp [jlookup]
    | some payload =>
      simp only [build_nurseconnect_optout_json, bind, Option.bind_eq_some, Option.pure_def,
        Option.some.injEq] at h
      obtain ⟨reg, hreg, cm, hcm, dm, hdm, fc, hfc, hpay⟩ := h
      simp [jlookup, ← hpay]
  · simp [build_momconnect_babyswitch_json, jlookup]
  · simp [build_channel_switch_json, jlookup]

end NdohHub

namespace NdohHub

/-- The registrant id used by the src test fixtures. -/
def goodUuid : String := "mother01-63e2-4acc-9b94-26663b9bc267"

def goodLang : Val := .s "eng_ZA"
def goodMsisdn : Val := .s "+27821112222"
def goodFaccode : Val := .s "123456"
def goodSaId : Val := .s "8108015001051"
def goodDate : Val := .s "1999-01-27"
def goodEdd : Val := .s "2016-11-30"
def goodBabyDob : Val := .s "2016-01-01"

/-- The actions `ValidateImplement.run` dispatches. -/
def supportedChangeActions : List String :=
  ["baby_switch", "pmtct_loss_switch", "pmtct_loss_optout", "pmtct_nonloss_optout",
   "nurse_update_detail", "nurse_change_msisdn", "nurse_optout", "momconnect_loss_switch",
   "momconnect_loss_optout", "momconnect_nonloss_optout", "momconnect_change_language",
   "momconnect_change_msisdn", "momconnect_change_identification",
   "admin_change_subscription", "switch_channel"]

/-- A data payload holding exactly the required fields of the action, each
carrying a representative valid value. -/
def goodChangeData (a : String) : DataMap :=
  if a == "pmtct_loss_switch" || a == "pmtct_loss_optout" ||
     a == "momconnect_loss_switch" || a == "momconnect_loss_optout" then
    [("reason", .s "miscarriage")]
  else if a == "pmtct_nonloss_optout" || a == "momconnect_nonloss_optout" then
    [("reason", .s "not_useful")]
  else if a == "nurse_update_detail" then [("faccode", goodFaccode)]
  else if a == "nurse_change_msisdn" then
    [("msisdn_old", goodMsisdn), ("msisdn_new", goodMsisdn), ("msisdn_device", goodMsisdn)]
  else if a == "nurse_optout" then [("reason", .s "job_change")]
  else if a == "momconnect_change_language" then [("language", goodLang)]
  else if a == "momconnect_change_msisdn" then [("msisdn", goodMsisdn)]
  else if a == "momconnect_change_identification" then
    [("id_type", .s "sa_id"), ("sa_id_no", goodSaId)]
  else if a == "admin_change_subscription" then
    [("messageset", .s "momconnect_prebirth.hw_full.1"), ("subscription", .i 1)]
  else if a == "switch_channel" then [("channel", .s "whatsapp")]
  else []

def mkGoodChange (a : String) : Change :=
  ⟨1, goodUuid, a, goodChangeData a, false, "20160101000000"⟩

/-- The supported registration shapes: `(reg_type, source authority)`. -/
def goodRegConfigs : List (String × String) :=
  [("pmtct_prebirth", "patient"), ("pmtct_postbirth", "patient"), ("nurseconnect", "hw_full"),
   ("momconnect_prebirth", "patient"), ("momconnect_prebirth", "hw_partial"),
   ("momconnect_prebirth", "hw_full"), ("whatsapp_prebirth", "hw_full")]

/-- A registration data payload with the required fields of the
`(reg_type, authority)` shape, each carrying a representative valid
value. -/
def goodRegData (rt auth : String) : DataMap :=
  if rt == "pmtct_prebirth" then
    [("operator_id", .s goodUuid), ("language", goodLang), ("mom_dob", goodDate),
     ("edd", goodEdd)]
  else if rt == "pmtct_postbirth" then
    [("operator_id", .s goodUuid), ("language", goodLang), ("mom_dob", goodDate),
     ("baby_dob", goodBabyDob)]
  else if rt == "nurseconnect" then
    [("operator_id", .s goodUuid), ("msisdn_registrant", goodMsisdn),
     ("msisdn_device", goodMsisdn), ("faccode", goodFaccode), ("language", goodLang)]
  else
    [("operator_id", .s goodUuid), ("msisdn_registrant", goodMsisdn),
     ("msisdn_device", goodMsisdn), ("language", goodLang), ("consent", .b true)] ++
    (if auth == "hw_partial" || auth == "hw_full" then
      [("id_type", .s "sa_id"), ("sa_id_no", goodSaId), ("mom_dob", goodDate)]
     else []) ++
    (if auth == "hw_full" then [("edd", goodEdd), ("faccode", goodFaccode)] else [])

def mkGoodReg (rt auth : String) : Registration :=
  ⟨1, goodUuid, rt, goodRegData rt auth, false, ⟨auth⟩, 0⟩

/-- C1: for every supported action type (all Change actions dispatched by
`ValidateImplement.run` and the Registration reg_types), a record whose
data holds the required fields for that action with valid values and a
valid-UUID `registrant_id` has `validate()` return true with zero
collected errors and nothing recorded under `data.invalid_fields` - for
any instantiation of the format validators accepting those values. -/
theorem allRequiredFieldsValidValidate (V : Validity)
    (huuid : V.is_valid_uuid (.s goodUuid) = true)
    (hlang : V.is_valid_lang goodLang = true)
    (hmsisdn : V.is_valid_msisdn goodMsisdn = true)
    (hfaccode : V.is_valid_faccode goodFaccode = true)
    (hsa : V.is_valid_sa_id_no goodSaId = true)
    (hdate : V.is_valid_date goodDate = true)
    (hedd : V.is_valid_edd goodEdd = true)
    (hbdob : V.is_valid_date goodBabyDob = true)
    (hbage : 0 ≤ V.get_baby_age goodBabyDob)
    (hidt : V.is_valid_id_type (.s "sa_id") = true) :
    (∀ a ∈ supportedChangeActions,
      (validateChange V (mkGoodChange a)).1 = true ∧
      collectChangeErrors V (mkGoodChange a) = [] ∧
      dlookup (validateChange V (mkGoodChange a)).2.data "invalid_fields" = none) ∧
    (∀ p ∈ goodRegConfigs,
      (validateRegistration V (mkGoodReg p.1 p.2)).1 = true ∧
      collectRegErrors V (mkGoodReg p.1 p.2) = [] ∧
      dlookup (validateRegistration V (mkGoodReg p.1 p.2)).2.data "invalid_fields" = none) := by
  have hbage' : ¬ (V.get_baby_age goodBabyDob < 0) := not_lt.mpr hbage
  constructor
  · intro a ha
    fin_cases ha <;>
    · refine ⟨?_, ?_, ?_⟩ <;>
      · simp [validateChange, collectChangeErrors, mkGoodChange, goodChangeData,
          check_pmtct_loss_optout_reason, check_pmtct_nonloss_optout_reason,
          check_nurse_update_detail, check_nurse_change_msisdn, check_nurse_optout,
          check_momconnect_loss_optout_reason, check_momconnect_nonloss_optout_reason,
          check_momconnect_change_language, check_momconnect_change_msisdn,
          check_momconnect_change_identification, check_admin_change_subscription,
          check_switch_channel, dkeys, valInList, valStr, listSetEq, strContains,
          huuid, hlang, hmsisdn, hfaccode, hsa, hdate, hedd, hbdob, hbage', hidt] <;>
        decide
  · intro p hp
    fin_cases hp <;>
    · refine ⟨?_, ?_, ?_⟩ <;>
      · simp [validateRegistration, collectRegErrors, mkGoodReg, goodRegData,
          check_lang, check_mom_dob, check_edd, check_baby_dob, check_operator_id,
          check_msisdn_registrant, check_msisdn_device, check_faccode, check_consent,
          check_sa_id_no, check_passport_no, check_passport_origin, check_id,
          dkeys, valInList, valStr, listSetEq, strContains,
          huuid, hlang, hmsisdn, hfaccode, hsa, hdate, hedd, hbdob, hbage', hidt] <;>
        decide

end NdohHub

namespace NdohHub

theorem allRequiredFieldsValid_witness :
    (∀ a ∈ supportedChangeActions,
      (validateChange allTrueV (mkGoodChange a)).1 = true ∧
      collectChangeErrors allTrueV (mkGoodChange a) = [] ∧
      dlookup (validateChange allTrueV (mkGoodChange a)).2.data "invalid_fields" = none) ∧
    (∀ p ∈ goodRegConfigs,
      (validateRegistration allTrueV (mkGoodReg p.1 p.2)).1 = true ∧
      collectRegErrors allTrueV (mkGoodReg p.1 p.2) = [] ∧
      dlookup (validateRegistration allTrueV (mkGoodReg p.1 p.2)).2.data "invalid_fields" =
        none) :=
  allRequiredFieldsValidValidate allTrueV rfl rfl rfl rfl rfl rfl rfl rfl (by decide) rfl

/-- The C8 counterexample state: a registrant holding one active
momconnect subscription and one active nurseconnect subscription. -/
def lossCexWorld : World :=
  { subscriptions := [
      ⟨1, "mom00001-63e2-4acc-9b94-26663b9bc267", 21, true, "eng_ZA", 1, 121⟩,
      ⟨2, "mom00001-63e2-4acc-9b94-26663b9bc267", 61, true, "eng_ZA", 1, 161⟩],
    messagesets := [
      ⟨21, "momconnect_prebirth.hw_full.1", 121⟩,
      ⟨61, "nurseconnect.hw_full.1", 161⟩,
      ⟨31, "loss_miscarriage.patient.1", 131⟩],
    identities := [⟨"mom00001-63e2-4acc-9b94-26663b9bc267",
      [("lang_code", .s "eng_ZA")], [], []⟩],
    subreqs := [], registrations := [], freshIds := [] }

/-- C8, counterexample: `loss_switch` does not check whether the target
loss message set is already the registrant's active one.  Re-running
`pmtct_loss_switch` on the state produced by a first run - where an
active nurseconnect subscription remains - creates a second, identical
loss SubscriptionRequest. -/
theorem lossSwitchRerunDuplicatesSubReq :
    ((pmtct_loss_switch lossCexWorld cexLossChange).1).subreqs.length = 1 ∧
    (pmtct_loss_switch (pmtct_loss_switch lossCexWorld cexLossChange).1
      cexLossChange).1.subreqs.length = 2 ∧
    (pmtct_loss_switch (pmtct_loss_switch lossCexWorld cexLossChange).1
      cexLossChange).1.subreqs =
      [⟨"mom00001-63e2-4acc-9b94-26663b9bc267", 31, 1, "eng_ZA", 131⟩,
       ⟨"mom00001-63e2-4acc-9b94-26663b9bc267", 31, 1, "eng_ZA", 131⟩] := by
  refine ⟨rfl, rfl, rfl⟩

end NdohHub

namespace NdohHub

/-- Whether a subscription's message set is a prebirth one (the
deactivation test of `baby_switch`'s loop). -/
def preBirthSub (msets : List Messageset) (sub : Subscription) : Bool :=
  strContains (((msets.find? (fun ms => ms.id == sub.messageset)).map (·.short_name)).getD "")
    "prebirth"

/-- Whether it is a momconnect-prebirth one. -/
def momPrebirthSub (msets : List Messageset) (sub : Subscription) : Bool :=
  strContains (((msets.find? (fun ms => ms.id == sub.messageset)).map (·.short_name)).getD "")
    "momconnect_prebirth"

/-- Whether it is a pmtct-prebirth one. -/
def pmtctPrebirthSub (msets : List Messageset) (sub : Subscription) : Bool :=
  strContains (((msets.find? (fun ms => ms.id == sub.messageset)).map (·.short_name)).getD "")
    "pmtct_prebirth"

theorem strContains_mom_pre {sn : String}
    (h : strContains sn "momconnect_prebirth" = true) : strContains sn "prebirth" = true := by
  have h1 := of_decide_eq_true h
  have h2 : ("prebirth".data) <:+: ("momconnect_prebirth".data) := by decide
  exact decide_eq_true (h2.trans h1)

theorem strContains_pmtct_pre {sn : String}
    (h : strContains sn "pmtct_prebirth" = true) : strContains sn "prebirth" = true := by
  have h1 := of_decide_eq_true h
  have h2 : ("prebirth".data) <:+: ("pmtct_prebirth".data) := by decide
  exact decide_eq_true (h2.trans h1)

/-- The world component of `baby_switch`'s evaluation loop: exactly the
prebirth subscriptions named in the scanned list get deactivated. -/
theorem babyEval_world (msets : List Messageset) (l : List Subscription) :
    ∀ (f0 : BabyFlags) (w0 : World),
    (l.foldl (babyEvalStep msets) (f0, w0)).2 =
      { w0 with subscriptions := w0.subscriptions.map (fun t =>
          if l.any (fun s => preBirthSub msets s && s.id == t.id) then
            { t with active := false } else t) } := by
  induction l with
  | nil =>
    intro f0 w0
    simp
  | cons s l ih =>
    intro f0 w0
    rw [List.foldl_cons,
      show babyEvalStep msets (f0, w0) s =
        ((babyEvalStep msets (f0, w0) s).1, (babyEvalStep msets (f0, w0) s).2) from rfl,
      ih ((babyEvalStep msets (f0, w0) s).1) ((babyEvalStep msets (f0, w0) s).2)]
    have hw1 : (babyEvalStep msets (f0, w0) s).2 =
        if preBirthSub msets s then updateSubscription w0 s.id { active := some false }
        else w0 := rfl
    rw [hw1]
    by_cases hp : preBirthSub msets s
    · rw [if_pos hp]
      show ({ w0 with subscriptions := _ } : World) = { w0 with subscriptions := _ }
      congr 1
      rw [show (updateSubscription w0 s.id { active := some false }).subscriptions =
        w0.subscriptions.map (fun t =>
          if t.id == s.id then
            { t with active := (some false).getD t.active, lang := (none : Option String).getD t.lang }
          else t) from rfl, List.map_map]
      apply List.map_congr_left
      intro t _
      show (fun t => if l.any (fun s => preBirthSub msets s && s.id == t.id) then
          { t with active := false } else t)
        (if t.id == s.id then
          { t with active := (some false).getD t.active,
                   lang := (none : Option String).getD t.lang } else t) =
        if (s :: l).any (fun s => preBirthSub msets s && s.id == t.id) then
          { t with active := false } else t
      have hsymm : (s.id == t.id) = (t.id == s.id) := by
        simp [beq_iff_eq, eq_comm]
      by_cases hid : (t.id == s.id) = true
      · rw [if_pos hid]
        have hcond : ((s :: l).any (fun s => preBirthSub msets s && s.id == t.id)) = true := by
          simp only [List.any_cons, hp, hsymm, hid, Bool.true_and, Bool.true_or]
        rw [hcond, if_pos rfl]
        by_cases hl : (l.any (fun s => preBirthSub msets s && s.id == t.id)) = true
        · simp [hl]
        · simp [hl]
      · rw [if_neg hid]
        have hcond : ((s :: l).any (fun s => preBirthSub msets s && s.id == t.id)) =
            (l.any (fun s => preBirthSub msets s && s.id == t.id)) := by
          simp only [List.any_cons, hsymm, (by simpa using hid : (t.id == s.id) = false),
            Bool.and_false, Bool.false_or]
        rw [hcond]
    · rw [if_neg hp]
      congr 1
      apply List.map_congr_left
      intro t _
      have hcond : ((s :: l).any (fun s => preBirthSub msets s && s.id == t.id)) =
          (l.any (fun s => preBirthSub msets s && s.id == t.id)) := by
        simp only [List.any_cons, (by simpa using hp : preBirthSub msets s = false),
          Bool.false_and, Bool.false_or]
      rw [hcond]

end NdohHub

namespace NdohHub

theorem updateIdentityDetails_subscriptions (W : World) (iid : String) (d : DataMap) :
    (updateIdentityDetails W iid d).subscriptions = W.subscriptions := rfl

theorem addSubReq_subscriptions (W : World) (sr : SubReq) :
    (addSubReq W sr).subscriptions = W.subscriptions := rfl

/-- The flags component of `baby_switch`'s evaluation loop. -/
theorem babyEval_flags (msets : List Messageset) (l : List Subscription) :
    ∀ (f0 : BabyFlags) (w0 : World),
    ((l.foldl (babyEvalStep msets) (f0, w0)).1.mom =
      (f0.mom || l.any (momPrebirthSub msets))) ∧
    ((l.foldl (babyEvalStep msets) (f0, w0)).1.pmtct =
      (f0.pmtct || l.any (pmtctPrebirthSub msets))) := by
  induction l with
  | nil => intro f0 w0; simp
  | cons s l ih =>
    intro f0 w0
    rw [List.foldl_cons,
      show babyEvalStep msets (f0, w0) s =
        ((babyEvalStep msets (f0, w0) s).1, (babyEvalStep msets (f0, w0) s).2) from rfl]
    obtain ⟨ihm, ihp⟩ := ih (babyEvalStep msets (f0, w0) s).1 (babyEvalStep msets (f0, w0) s).2
    have hfm : (babyEvalStep msets (f0, w0) s).1.mom = (f0.mom || momPrebirthSub msets s) := by
      simp only [babyEvalStep, momPrebirthSub]
      by_cases h1 : strContains
          (((msets.find? (fun ms => ms.id == s.messageset)).map (·.short_name)).getD "")
          "pmtct_prebirth" <;>
      by_cases h2 : strContains
          (((msets.find? (fun ms => ms.id == s.messageset)).map (·.short_name)).getD "")
          "momconnect_prebirth" <;>
        simp [h1, h2]
    have hfp : (babyEvalStep msets (f0, w0) s).1.pmtct =
        (f0.pmtct || pmtctPrebirthSub msets s) := by
      simp only [babyEvalStep, pmtctPrebirthSub]
      by_cases h1 : strContains
          (((msets.find? (fun ms => ms.id == s.messageset)).map (·.short_name)).getD "")
          "pmtct_prebirth" <;>
      by_cases h2 : strContains
          (((msets.find? (fun ms => ms.id == s.messageset)).map (·.short_name)).getD "")
          "momconnect_prebirth" <;>
        simp [h1, h2]
    constructor
    · rw [ihm, hfm, List.any_cons, Bool.or_assoc]
    · rw [ihp, hfp, List.any_cons, Bool.or_assoc]

theorem baby_switch_subscriptions (W : World) (c : Change) :
    ((baby_switch W c).1).subscriptions =
      (((getActiveSubs W c.registrant_id).foldl (babyEvalStep W.messagesets)
        ({}, W)).2).subscriptions := by
  unfold baby_switch
  by_cases hm : (((getActiveSubs W c.registrant_id).foldl (babyEvalStep W.messagesets)
      ({}, W)).1).mom <;>
  by_cases hp : (((getActiveSubs W c.registrant_id).foldl (babyEvalStep W.messagesets)
      ({}, W)).1).pmtct <;>
    simp [hm, hp, saveLastBabyDob, updateIdentityDetails, addSubReq]

theorem baby_switch_messagesets (W : World) (c : Change) :
    ((baby_switch W c).1).messagesets = W.messagesets := by
  unfold baby_switch
  by_cases hm : (((getActiveSubs W c.registrant_id).foldl (babyEvalStep W.messagesets)
      ({}, W)).1).mom <;>
  by_cases hp : (((getActiveSubs W c.registrant_id).foldl (babyEvalStep W.messagesets)
      ({}, W)).1).pmtct <;>
    simp [hm, hp, saveLastBabyDob, updateIdentityDetails, addSubReq,
      babyEval_world W.messagesets (getActiveSubs W c.registrant_id) {} W]

theorem baby_switch_subreqs_of_flags (W : World) (c : Change)
    (hm : (((getActiveSubs W c.registrant_id).foldl (babyEvalStep W.messagesets)
      ({}, W)).1).mom = false)
    (hp : (((getActiveSubs W c.registrant_id).foldl (babyEvalStep W.messagesets)
      ({}, W)).1).pmtct = false) :
    ((baby_switch W c).1).subreqs = W.subreqs := by
  unfold baby_switch
  simp [hm, hp, saveLastBabyDob, updateIdentityDetails,
    babyEval_world W.messagesets (getActiveSubs W c.registrant_id) {} W]

theorem momPrebirthSub_implies_pre {msets : List Messageset} {s : Subscription}
    (h : momPrebirthSub msets s = true) : preBirthSub msets s = true := by
  unfold momPrebirthSub at h
  unfold preBirthSub
  exact strContains_mom_pre h

theorem pmtctPrebirthSub_implies_pre {msets : List Messageset} {s : Subscription}
    (h : pmtctPrebirthSub msets s = true) : preBirthSub msets s = true := by
  unfold pmtctPrebirthSub at h
  unfold preBirthSub
  exact strContains_pmtct_pre h

/-- After one `baby_switch` run, no active subscription of the registrant
is a prebirth one. -/
theorem active_after_baby_switch_not_prebirth (W : World) (c : Change) (s : Subscription)
    (hs : s ∈ getActiveSubs ((baby_switch W c).1) c.registrant_id) :
    preBirthSub W.messagesets s = false := by
  rcases List.mem_filter.mp hs with ⟨hmem, hcond⟩
  rw [baby_switch_subscriptions,
    babyEval_world W.messagesets (getActiveSubs W c.registrant_id) {} W] at hmem
  simp only [] at hmem
  obtain ⟨t, htmem, hteq⟩ := List.mem_map.mp hmem
  by_cases hg : (getActiveSubs W c.registrant_id).any
      (fun s' => preBirthSub W.messagesets s' && s'.id == t.id) = true
  · rw [if_pos hg] at hteq
    rw [← hteq] at hcond
    simp at hcond
  · rw [if_neg hg] at hteq
    subst hteq
    by_contra hpre
    have hpre' : preBirthSub W.messagesets t = true := by
      cases hb : preBirthSub W.messagesets t
      · exact absurd hb hpre
      · rfl
    have htact : t ∈ getActiveSubs W c.registrant_id :=
      List.mem_filter.mpr ⟨htmem, hcond⟩
    exact hg (List.any_eq_true.mpr ⟨t, htact, by simp [hpre']⟩)

/-- C8, amended: `baby_switch` guards on the *source* prebirth
subscriptions still being active, so re-running it on the state already
mutated by a previous run creates no duplicate SubscriptionRequest; and
`loss_switch`'s only guard is the empty-active-subscriptions abort, under
which a re-run also creates nothing. -/
theorem babySwitchRerunCreatesNoDuplicate (W : World) (c : Change) :
    ((baby_switch (baby_switch W c).1 c).1).subreqs = ((baby_switch W c).1).subreqs ∧
    (∀ W' : World, getActiveSubs W' c.registrant_id = [] →
      (pmtct_loss_switch W' c).1.subreqs = W'.subreqs) := by
  constructor
  · set W4 := (baby_switch W c).1 with hW4
    have hmsets : W4.messagesets = W.messagesets := baby_switch_messagesets W c
    have hnomom : (getActiveSubs W4 c.registrant_id).any (momPrebirthSub W4.messagesets) =
        false := by
      rw [List.any_eq_false]
      intro s hsmem
      rw [hmsets]
      intro hmp
      have := momPrebirthSub_implies_pre hmp
      rw [active_after_baby_switch_not_prebirth W c s hsmem] at this
      exact Bool.false_ne_true this
    have hnopmtct : (getActiveSubs W4 c.registrant_id).any (pmtctPrebirthSub W4.messagesets) =
        false := by
      rw [List.any_eq_false]
      intro s hsmem
      rw [hmsets]
      intro hmp
      have := pmtctPrebirthSub_implies_pre hmp
      rw [active_after_baby_switch_not_prebirth W c s hsmem] at this
      exact Bool.false_ne_true this
    have hflags := babyEval_flags W4.messagesets (getActiveSubs W4 c.registrant_id) {} W4
    exact baby_switch_subreqs_of_flags W4 c
      (by rw [hflags.1, hnomom]; rfl)
      (by rw [hflags.2, hnopmtct]; rfl)
  · intro W' h
    simp [pmtct_loss_switch, loss_switch, h]

theorem babySwitchRerunCreatesNoDuplicate_witness :
    ((baby_switch (baby_switch lossCexWorld cexLossChange).1 cexLossChange).1).subreqs =
      ((baby_switch lossCexWorld cexLossChange).1).subreqs ∧
    (pmtct_loss_switch emptyWorld cexLossChange).1.subreqs = emptyWorld.subreqs :=
  ⟨(babySwitchRerunCreatesNoDuplicate lossCexWorld cexLossChange).1,
   (babySwitchRerunCreatesNoDuplicate lossCexWorld cexLossChange).2 emptyWorld rfl⟩

end NdohHub

namespace NdohHub

theorem dhas_dpop (d : DataMap) (k k' : String) :
    dhas (dpop d k) k' = (!(k' == k) && dhas d k') := by
  induction d with
  | nil => simp
  | cons p d ih =>
    by_cases hkk : k' = k
    · subst hkk
      by_cases hp : p.1 == k' <;> simp [hp, ih]
    · have hkkb : (k' == k) = false := by simpa using hkk
      by_cases hp : p.1 == k
      · have hne : (p.1 == k') = false := by
          have hpk : p.1 = k := by simpa using hp
          simp [hpk, Ne.symm hkk]
        simp [hp, hne, ih, hkkb]
      · simp [hp, ih, hkkb]

/-- A registration payload carrying every PII field (arbitrary values
`v`) plus the two msisdn fields. -/
def piiDemoData (v : String → Val) (md mr : String) : DataMap :=
  [("id_type", v "id_type"), ("mom_dob", v "mom_dob"), ("passport_no", v "passport_no"),
   ("passport_origin", v "passport_origin"), ("sa_id_no", v "sa_id_no"),
   ("language", v "language"), ("consent", v "consent"),
   ("mom_given_name", v "mom_given_name"), ("mom_family_name", v "mom_family_name"),
   ("mom_email", v "mom_email"), ("msisdn_device", .s md), ("msisdn_registrant", .s mr)]

def piiDemoReg (rid : String) (v : String → Val) (md mr : String) : Registration :=
  ⟨1, rid, "momconnect_prebirth", piiDemoData v md mr, true, ⟨"hw_full"⟩, 0⟩

/-- A world holding the registrant's identity (arbitrary prior details
`d0`, no addresses yet) and two fresh identity ids for the address
resolution. -/
def piiDemoWorld (rid : String) (d0 : DataMap) : World :=
  ⟨[], [], [⟨rid, d0, [], []⟩], [], [], ["created-0", "created-1"]⟩

set_option maxHeartbeats 2000000 in
/-- C7: round-trip law.  For a registration carrying every PII field
(arbitrary values) plus device/registrant MSISDNs, in a world where the
registrant's identity exists and the MSISDNs are not yet known to the
identity store, rehydrating after anonymizing restores every PII field of
`data` to its original value; the language value is stored as `lang_code`
on the Identity by anonymization and restored under `language`; and the
`msisdn_*` fields, replaced by `uuid_*` identity references, resolve back
to the original MSISDNs. -/
theorem piiRoundTripRestores (rid : String) (d0 : DataMap) (v : String → Val)
    (md mr : String) (hr0 : rid ≠ "created-0") (hr1 : rid ≠ "created-1")
    (hmd0 : md ≠ "") (hmr0 : mr ≠ "") :
    (∀ f ∈ piiFields,
      dlookup (addPII (removePII (piiDemoWorld rid d0) (piiDemoReg rid v md mr)).1
        (removePII (piiDemoWorld rid d0) (piiDemoReg rid v md mr)).2).data f =
      dlookup (piiDemoReg rid v md mr).data f) ∧
    dlookup (addPII (removePII (piiDemoWorld rid d0) (piiDemoReg rid v md mr)).1
      (removePII (piiDemoWorld rid d0) (piiDemoReg rid v md mr)).2).data "msisdn_device" =
      some (.s md) ∧
    dlookup (addPII (removePII (piiDemoWorld rid d0) (piiDemoReg rid v md mr)).1
      (removePII (piiDemoWorld rid d0) (piiDemoReg rid v md mr)).2).data "msisdn_registrant" =
      some (.s mr) ∧
    dlookup (getIdentityDetails
      (removePII (piiDemoWorld rid d0) (piiDemoReg rid v md mr)).1 rid) "lang_code" =
      some (v "language") ∧
    dlookup (removePII (piiDemoWorld rid d0) (piiDemoReg rid v md mr)).2.data "language" =
      none ∧
    dlookup (removePII (piiDemoWorld rid d0) (piiDemoReg rid v md mr)).2.data
      "msisdn_registrant" = none ∧
    dhas (removePII (piiDemoWorld rid d0) (piiDemoReg rid v md mr)).2.data
      "uuid_registrant" = true := by
  have hb0 : (rid == "created-0") = false := beq_eq_false_iff_ne.mpr hr0
  have hb1 : (rid == "created-1") = false := beq_eq_false_iff_ne.mpr hr1
  by_cases hmd : md = mr
  · subst hmd
    refine ⟨?_, ?_, ?_, ?_, ?_, ?_, ?_⟩ <;>
    · try intro f hf; try fin_cases hf
      all_goals
        simp [removePII, addPII, piiDemoData, piiDemoReg, piiDemoWorld, piiFields,
          piiIdentityFields, getIdentityDetails, getIdentity, getIdentityByAddress,
          createIdentityWithMsisdn, lookupOrCreateByMsisdn, updateIdentityDetails,
          getIdentityMsisdn, renameKey, valStr, dlookup_dset_self, dlookup_dset_ne,
          dhas_dset, dhas_dpop, dlookup_dpop_self, dlookup_dpop_ne, hb0, hb1, hmd0, hmr0,
          List.filter_cons, List.filter_nil, List.foldl_cons, List.foldl_nil]
  · have hbm : (md == mr) = false := beq_eq_false_iff_ne.mpr hmd
    refine ⟨?_, ?_, ?_, ?_, ?_, ?_, ?_⟩ <;>
    · try intro f hf; try fin_cases hf
      all_goals
        simp [removePII, addPII, piiDemoData, piiDemoReg, piiDemoWorld, piiFields,
          piiIdentityFields, getIdentityDetails, getIdentity, getIdentityByAddress,
          createIdentityWithMsisdn, lookupOrCreateByMsisdn, updateIdentityDetails,
          getIdentityMsisdn, renameKey, valStr, dlookup_dset_self, dlookup_dset_ne,
          dhas_dset, dhas_dpop, dlookup_dpop_self, dlookup_dpop_ne, hb0, hb1, hbm, hmd0, hmr0,
          List.filter_cons, List.filter_nil, List.foldl_cons, List.foldl_nil]

end NdohHub

namespace NdohHub

theorem piiRoundTripRestores_witness :
    (∀ f ∈ piiFields,
      dlookup (addPII (removePII (piiDemoWorld "mother01-63e2-4acc-9b94-26663b9bc267" [])
          (piiDemoReg "mother01-63e2-4acc-9b94-26663b9bc267" (fun _ => .s "x")
            "+27821110000" "+27821112222")).1
        (removePII (piiDemoWorld "mother01-63e2-4acc-9b94-26663b9bc267" [])
          (piiDemoReg "mother01-63e2-4acc-9b94-26663b9bc267" (fun _ => .s "x")
            "+27821110000" "+27821112222")).2).data f =
      dlookup (piiDemoReg "mother01-63e2-4acc-9b94-26663b9bc267" (fun _ => .s "x")
        "+27821110000" "+27821112222").data f) ∧
    dlookup (addPII (removePII (piiDemoWorld "mother01-63e2-4acc-9b94-26663b9bc267" [])
        (piiDemoReg "mother01-63e2-4acc-9b94-26663b9bc267" (fun _ => .s "x")
          "+27821110000" "+27821112222")).1
      (removePII (piiDemoWorld "mother01-63e2-4acc-9b94-26663b9bc267" [])
        (piiDemoReg "mother01-63e2-4acc-9b94-26663b9bc267" (fun _ => .s "x")
          "+27821110000" "+27821112222")).2).data "msisdn_device" =
      some (.s "+27821110000") ∧
    dlookup (getIdentityDetails
      (removePII (piiDemoWorld "mother01-63e2-4acc-9b94-26663b9bc267" [])
        (piiDemoReg "mother01-63e2-4acc-9b94-26663b9bc267" (fun _ => .s "x")
          "+27821110000" "+27821112222")).1
      "mother01-63e2-4acc-9b94-26663b9bc267") "lang_code" = some (.s "x") := by
  have h := piiRoundTripRestores "mother01-63e2-4acc-9b94-26663b9bc267" [] (fun _ => .s "x")
    "+27821110000" "+27821112222" (by decide) (by decide) (by decide) (by decide)
  exact ⟨h.1, h.2.1, h.2.2.2.1⟩

end NdohHub
